import Mathlib

/-!
# Verification of the SiteMapper crawling / content-extraction core

A shallow embedding, in Lean 4, of the site-traversal and content-extraction
engine of `src/server/services/crawler.ts` (class `WebsiteCrawler`), together
with proofs and refutations of the specification's claims about it.

Modelling conventions:

* Machine-level JavaScript strings are modelled by Lean `String`
  (`String.length` counts code points; JavaScript counts UTF-16 units — the
  two agree on every string handled in the theorems below, none of which
  compares thresholds on strings containing astral-plane characters except
  where the character is irrelevant to the comparison's outcome).
* `cheerio` documents are modelled by a rose tree of element/text nodes;
  the selector operations actually used by the crawler (`find`, `first`,
  `next`, `parent`, `closest`, `contents`, `text`, `attr`, class/id/tag
  matching) are implemented over that tree.
* Network effects (`axios.get` of pages and sitemaps, the GLM AI call) are
  modelled by an explicit environment `Env` of oracles; a thrown exception
  is an `Option`/failure value.
* WHATWG `new URL(...)` parsing is modelled by `parseURL` for the simple
  `scheme://host/path?query#fragment` shapes the crawler feeds it.
-/

namespace SiteMapper

/-! ## String utilities (JavaScript semantics) -/

/-- Is `pat` a prefix of `s` (character lists)? -/
def isPrefixChars : List Char → List Char → Bool
  | [], _ => true
  | _ :: _, [] => false
  | a :: as, b :: bs => a == b && isPrefixChars as bs

/-- Does `pat` occur as a contiguous substring of `s`?
Models JavaScript `s.includes(pat)`. -/
def hasSubChars (pat : List Char) : List Char → Bool
  | [] => isPrefixChars pat []
  | c :: rest => isPrefixChars pat (c :: rest) || hasSubChars pat rest

/-- JavaScript `s.includes(pat)`. -/
def jsIncludes (s pat : String) : Bool := hasSubChars pat.data s.data

/-- JavaScript whitespace class `\s` (the characters relevant here). -/
def isWsChar (c : Char) : Bool := c == ' ' || c == '\t' || c == '\n' || c == '\r'

/-- Collapse every maximal run of whitespace to a single space.

This is the composed effect of the crawler's
`.replace(/\n\s*\n+/g, '\n').replace(/\s+/g, ' ')` chains (the second
replacement already maps every maximal whitespace run — whatever the first
left of it — to one space) and of the single `.replace(/\s+/g, ' ')` calls. -/
def collapseWsAux : Bool → List Char → List Char
  | _, [] => []
  | prevWs, c :: rest =>
    if isWsChar c then
      if prevWs then collapseWsAux true rest
      else ' ' :: collapseWsAux true rest
    else c :: collapseWsAux false rest

/-- See `collapseWsAux`. -/
def collapseWsChars (l : List Char) : List Char := collapseWsAux false l

/-- JavaScript `s.replace(/\s+/g, ' ')`. -/
def collapseWs (s : String) : String := ⟨collapseWsChars s.data⟩

/-- JavaScript `s.trim()` (on the whitespace characters used here). -/
def jsTrim (s : String) : String :=
  ⟨((s.data.dropWhile isWsChar).reverse.dropWhile isWsChar).reverse⟩

/-- JavaScript `s.toLowerCase()` (ASCII; other characters unchanged). -/
def jsToLower (s : String) : String := ⟨s.data.map Char.toLower⟩

/-- JavaScript `s.startsWith(pre)`. -/
def jsStartsWith (s pre : String) : Bool := isPrefixChars pre.data s.data

/-- JavaScript `s.endsWith(suf)`. -/
def jsEndsWith (s suf : String) : Bool := isPrefixChars suf.data.reverse s.data.reverse

/-- JavaScript `s.substring(0, n)` (take the first `n` characters). -/
def jsSubstringTo (s : String) (n : Nat) : String := ⟨s.data.take n⟩

/-- Keep the first occurrence of each element: the JavaScript `Set`
insertion-order de-duplication used for header navigation links (`seen`
is the set's contents so far). -/
def dedupKeepFirstAux (seen : List String) : List String → List String
  | [] => []
  | x :: rest =>
    if seen.contains x then dedupKeepFirstAux seen rest
    else x :: dedupKeepFirstAux (x :: seen) rest

/-- See `dedupKeepFirstAux`. -/
def dedupKeepFirst (l : List String) : List String := dedupKeepFirstAux [] l

/-! ## URL model

`new URL(url)` is modelled by `parseURL`, covering the
`scheme://host/path?query#fragment` shapes the crawler handles.  The query is
dropped (no crawler code inspects it); `origin`, `pathname` and `hash` follow
the WHATWG accessors: `hash` is `"#" ++ fragment` when the fragment is
non-empty and `""` otherwise. -/

structure URLParts where
  scheme : String
  host : String
  pathname : String
  hash : String
deriving Repr, DecidableEq

/-- WHATWG `URL.origin`. -/
def URLParts.origin (u : URLParts) : String := u.scheme ++ "://" ++ u.host

/-- Split a character list at the first occurrence of `"://"`. -/
def splitSchemeChars : List Char → Option (List Char × List Char)
  | [] => none
  | ':' :: '/' :: '/' :: rest => some ([], rest)
  | c :: rest =>
    match splitSchemeChars rest with
    | some (pre, post) => some (c :: pre, post)
    | none => none

/-- Split at the first character satisfying `p`: returns the part before and
the part strictly after the matched character (`none` if no match). -/
def splitFirstChar (p : Char → Bool) : List Char → Option (List Char × List Char)
  | [] => none
  | c :: rest =>
    if p c then some ([], rest)
    else
      match splitFirstChar p rest with
      | some (pre, post) => some (c :: pre, post)
      | none => none

/-- Model of WHATWG `new URL(url)`: `none` models a thrown `TypeError`. -/
def parseURL (url : String) : Option URLParts :=
  match splitSchemeChars url.data with
  | none => none
  | some (schemeCs, rest) =>
    if schemeCs.isEmpty then none
    else
      -- fragment: everything after the first '#'
      let (beforeHash, hash) :=
        match splitFirstChar (fun c => c == '#') rest with
        | none => (rest, "")
        | some (pre, frag) => (pre, if frag.isEmpty then "" else "#" ++ String.mk frag)
      -- host: up to the first '/' or '?'; pathname: from that '/" up to '?'
      match splitFirstChar (fun c => c == '/') beforeHash with
      | none =>
        let host :=
          match splitFirstChar (fun c => c == '?') beforeHash with
          | none => beforeHash
          | some (pre, _) => pre
        if host.isEmpty then none
        else some ⟨String.mk schemeCs, String.mk host, "/", hash⟩
      | some (host, pathRest) =>
        if host.isEmpty then none
        else
          let path :=
            match splitFirstChar (fun c => c == '?') pathRest with
            | none => pathRest
            | some (pre, _) => pre
          some ⟨String.mk schemeCs, String.mk host, "/" ++ String.mk path, hash⟩

/-- The pathname's directory part, up to and including the last `'/'`. -/
def dirOfPath (path : String) : String :=
  ⟨(path.data.reverse.dropWhile (fun c => c ≠ '/')).reverse⟩

/-- Model of `new URL(href, base).href` for the href shapes the crawler
meets: absolute URLs are returned unchanged, `//`-, `/`-, `#`- and
plain-relative hrefs are resolved against the base (without dot-segment
normalisation, which no claim exercises); `none` models a thrown
`TypeError` (unparseable base). -/
def resolveURLCore (href base : String) : Option String :=
  if (parseURL href).isSome then some href
  else
    match parseURL base with
    | none => none
    | some b =>
      if jsStartsWith href "//" then some (b.scheme ++ ":" ++ href)
      else if jsStartsWith href "/" then some (b.origin ++ href)
      else if jsStartsWith href "#" then some (b.origin ++ b.pathname ++ href)
      else if href = "" then some (b.origin ++ b.pathname)
      else some (b.origin ++ dirOfPath b.pathname ++ href)

/-! ## `WebsiteCrawler` URL helpers -/

/-- Source `crawler.ts` lines 511–517: `resolveUrl(href, currentUrl)` — resolves a
possibly-relative href, returning `''` when `new URL` throws. -/
def resolveUrl (href currentUrl : String) : String :=
  match resolveURLCore href currentUrl with
  | some s => s
  | none => ""

/-- Source `crawler.ts` line 533. -/
def skipExtensions : List String :=
  [".pdf", ".jpg", ".jpeg", ".png", ".gif", ".svg", ".css", ".js", ".xml", ".txt", ".ico"]

/-- Source `crawler.ts` line 537. -/
def skipPaths : List String :=
  ["/wp-admin", "/admin", "/api", "/wp-content", "/wp-includes"]

/-- Source `crawler.ts` lines 519–544: `shouldCrawlUrl(url)`.  `baseUrl` is the
crawler's `this.baseUrl` (the seed URL's origin). -/
def shouldCrawlUrl (baseUrl url : String) : Bool :=
  if url = "" then false
  else
    match parseURL url with
    | none => false  -- `new URL` threw: the catch returns false
    | some parsedUrl =>
      if parsedUrl.origin ≠ baseUrl then false
      else if parsedUrl.hash ≠ "" then false
      else
        let path := jsToLower parsedUrl.pathname
        if skipExtensions.any (fun ext => jsEndsWith path ext) then false
        else if skipPaths.any (fun skipPath => jsStartsWith path skipPath) then false
        else true

/-- Source `crawler.ts` lines 546–561: `determinePageType(url, title)`, after a
successful `new URL(url)` parse (the caller-side throw is modelled at each
call site). -/
def determinePageTypeCore (u : URLParts) (title : String) : String :=
  let path := jsToLower u.pathname
  let titleLower := jsToLower title
  if path = "/" || path = "/home" then "homepage"
  else if jsIncludes path "/about" || jsIncludes titleLower "about" then "about"
  else if jsIncludes path "/contact" || jsIncludes titleLower "contact" then "contact"
  else if jsIncludes path "/product" || jsIncludes titleLower "product" then "product"
  else if jsIncludes path "/service" || jsIncludes titleLower "service" then "service"
  else if jsIncludes path "/blog" || jsIncludes path "/news" || jsIncludes titleLower "blog" then "blog"
  else if jsIncludes path "/portfolio" || jsIncludes titleLower "portfolio" then "portfolio"
  else if jsIncludes path "/team" || jsIncludes titleLower "team" then "team"
  else if jsIncludes path "/pricing" || jsIncludes titleLower "pricing" then "pricing"
  else "page"

/-- Model of `determinePageType` as called: `none` models the `TypeError` thrown by
`new URL(url)` on an unparseable argument. -/
def determinePageType (url title : String) : Option String :=
  (parseURL url).map (fun u => determinePageTypeCore u title)

end SiteMapper


namespace SiteMapper

/-! ## DOM model

A parsed HTML document (`cheerio.load`) is a rose tree of element and text
nodes (`NodeList` is the mutual child-list type, so that all traversals are
structural).  `Loc` is a zipper: an element together with the chain of its
ancestors and their sibling splits, supporting the `parent` / `next` /
`closest` / `.not` selection operations the crawler uses. -/

mutual

inductive Node where
  | elem (tag : String) (attrs : List (String × String)) (children : NodeList)
  | text (s : String)
deriving Repr

inductive NodeList where
  | nil
  | cons (n : Node) (rest : NodeList)
deriving Repr

end

def NodeList.toList : NodeList → List Node
  | .nil => []
  | .cons n rest => n :: rest.toList

def nodesOf : List Node → NodeList
  | [] => .nil
  | n :: rest => .cons n (nodesOf rest)

/-- Fixture-building helper: an element node with a plain list of children. -/
def el (tag : String) (attrs : List (String × String)) (children : List Node) : Node :=
  .elem tag attrs (nodesOf children)

mutual

/-- Structural node equality (stands in for DOM node identity: two `Loc`s
compare equal exactly when they denote the same position in the same tree). -/
def nodeBEq : Node → Node → Bool
  | .text s, .text t => s == t
  | .elem t1 a1 c1, .elem t2 a2 c2 => t1 == t2 && a1 == a2 && nodeListBEq c1 c2
  | _, _ => false

/-- See `nodeBEq`. -/
def nodeListBEq : NodeList → NodeList → Bool
  | .nil, .nil => true
  | .cons n ns, .cons m ms => nodeBEq n m && nodeListBEq ns ms
  | _, _ => false

end

instance : BEq Node := ⟨nodeBEq⟩

def listNodeBEq : List Node → List Node → Bool
  | [], [] => true
  | n :: ns, m :: ms => nodeBEq n m && listNodeBEq ns ms
  | _, _ => false

mutual

/-- cheerio `.text()` of a single node: concatenated descendant text. -/
def textOf : Node → String
  | .text s => s
  | .elem _ _ cs => textOfList cs

/-- See `textOf`. -/
def textOfList : NodeList → String
  | .nil => ""
  | .cons n rest => textOf n ++ textOfList rest

end

def Node.textContent (n : Node) : String := textOf n

/-- Text (cheerio `.text()`) of a selection (concatenates over all matched nodes). -/
def selectionText (ns : List Node) : String :=
  match ns with
  | [] => ""
  | n :: rest => textOf n ++ selectionText rest

def Node.isElem : Node → Bool
  | .elem _ _ _ => true
  | .text _ => false

def Node.tagName : Node → String
  | .elem t _ _ => t
  | .text _ => ""

def Node.attr (n : Node) (name : String) : Option String :=
  match n with
  | .elem _ attrs _ => (attrs.find? (fun p => p.1 = name)).map (fun p => p.2)
  | .text _ => none

def Node.childNodes : Node → List Node
  | .elem _ _ cs => cs.toList
  | .text _ => []

/-- Split into whitespace-separated words (for `class` attribute matching). -/
def wordsAux (cur : List Char) : List Char → List String
  | [] => if cur.isEmpty then [] else [String.mk cur.reverse]
  | c :: rest =>
    if isWsChar c then
      if cur.isEmpty then wordsAux [] rest
      else String.mk cur.reverse :: wordsAux [] rest
    else wordsAux (c :: cur) rest

/-- CSS class-selector match: the node's `class` attribute contains `cls`
as a whitespace-separated word. -/
def Node.hasClass (n : Node) (cls : String) : Bool :=
  match n.attr "class" with
  | none => false
  | some s => (wordsAux [] s.data).any (fun w => w = cls)

/-- CSS id-selector match. -/
def Node.hasId (n : Node) (idv : String) : Bool := n.attr "id" == some idv

mutual

/-- Descendants of a node (excluding the node), document (pre)order. -/
def descNodesOf : Node → List Node
  | .text _ => []
  | .elem _ _ cs => descNodesList cs

/-- All nodes of a forest, each followed by its descendants, preorder. -/
def descNodesList : NodeList → List Node
  | .nil => []
  | .cons n rest => n :: (descNodesOf n ++ descNodesList rest)

end

def Node.descNodes (n : Node) : List Node := descNodesOf n

/-- Model of `$el.find(sel)` as a node-level filter (used where the crawler only
reads text/attributes of the found elements). -/
def findNodes (n : Node) (p : Node → Bool) : List Node :=
  n.descNodes.filter p

mutual

/-- Text of a node with subtrees matching `skip` removed (models
`clone().find(sel).remove().end().text()` applied from the children down). -/
def textExceptNode (skip : Node → Bool) : Node → String
  | .text s => s
  | .elem t a cs => if skip (.elem t a cs) then "" else textExceptChildren skip cs

/-- See `textExceptNode`. -/
def textExceptChildren (skip : Node → Bool) : NodeList → String
  | .nil => ""
  | .cons n rest => textExceptNode skip n ++ textExceptChildren skip rest

end

/-- See `textExceptNode`; the same over a plain child list. -/
def textExceptList (skip : Node → Bool) : List Node → String
  | [] => ""
  | n :: rest => textExceptNode skip n ++ textExceptList skip rest

/-! ### Zipper (`Loc`) -/

structure Crumb where
  tag : String
  attrs : List (String × String)
  /-- Earlier siblings, nearest first (reversed document order). -/
  before : List Node
  /-- Later siblings, document order. -/
  after : List Node
deriving Repr

def crumbBEq (a b : Crumb) : Bool :=
  a.tag == b.tag && a.attrs == b.attrs && listNodeBEq a.before b.before
    && listNodeBEq a.after b.after

def crumbsBEq : List Crumb → List Crumb → Bool
  | [], [] => true
  | c :: cs, d :: ds => crumbBEq c d && crumbsBEq cs ds
  | _, _ => false

structure Loc where
  cur : Node
  /-- Innermost ancestor first. -/
  crumbs : List Crumb

def locBEq (a b : Loc) : Bool := nodeBEq a.cur b.cur && crumbsBEq a.crumbs b.crumbs

/-- cheerio `.parent()`. -/
def Loc.parent (loc : Loc) : Option Loc :=
  match loc.crumbs with
  | [] => none
  | c :: rest => some ⟨.elem c.tag c.attrs (nodesOf (c.before.reverse ++ loc.cur :: c.after)), rest⟩

/-- Scan right through the sibling list for the next element node. -/
def nextSibAux (tag : String) (attrs : List (String × String)) (crumbs : List Crumb)
    (before : List Node) : List Node → Option Loc
  | [] => none
  | n :: after =>
    if n.isElem then some ⟨n, ⟨tag, attrs, before, after⟩ :: crumbs⟩
    else nextSibAux tag attrs crumbs (n :: before) after

/-- cheerio `.next()`: the next sibling element. -/
def Loc.nextSib (loc : Loc) : Option Loc :=
  match loc.crumbs with
  | [] => none
  | c :: rest => nextSibAux c.tag c.attrs rest (loc.cur :: c.before) c.after

/-- cheerio `.closest(sel)`: nearest self-or-ancestor matching `p`; `cur`
starts as the element itself and is rebuilt one ancestor at a time. -/
def closestAux (p : Node → Bool) : Node → List Crumb → Option Loc
  | cur, [] => if p cur then some ⟨cur, []⟩ else none
  | cur, c :: rest =>
    if p cur then some ⟨cur, c :: rest⟩
    else closestAux p (.elem c.tag c.attrs (nodesOf (c.before.reverse ++ cur :: c.after))) rest

/-- See `closestAux`. -/
def Loc.closest (loc : Loc) (p : Node → Bool) : Option Loc :=
  closestAux p loc.cur loc.crumbs

mutual

/-- Descendant locations of a node sitting at context `crumbs`. -/
def descLocsNode : Node → List Crumb → List Loc
  | .text _, _ => []
  | .elem t a cs, crumbs => descLocsChildren t a [] cs crumbs

/-- Locations of a child forest (with `before` the already-passed earlier
siblings, reversed), each followed by its own descendants, preorder. -/
def descLocsChildren (t : String) (a : List (String × String)) (before : List Node) :
    NodeList → List Crumb → List Loc
  | .nil, _ => []
  | .cons n rest, crumbs =>
    ⟨n, ⟨t, a, before, rest.toList⟩ :: crumbs⟩ ::
      (descLocsNode n ((⟨t, a, before, rest.toList⟩ : Crumb) :: crumbs)
        ++ descLocsChildren t a (n :: before) rest crumbs)

end

/-- Descendant locations of `loc` (excluding `loc` itself), document order. -/
def Loc.descLocs (loc : Loc) : List Loc := descLocsNode loc.cur loc.crumbs

/-- The document root as a location. -/
def rootLoc (root : Node) : Loc := ⟨root, []⟩

/-- All locations of the document (root first), document order. -/
def allLocs (root : Node) : List Loc := rootLoc root :: (rootLoc root).descLocs

/-- Model of `$(sel)` over the whole document, as element locations. -/
def selectLocs (root : Node) (p : Node → Bool) : List Loc :=
  (allLocs root).filter (fun l => l.cur.isElem && p l.cur)

/-- Model of `$(sel)` over the whole document, as plain element nodes. -/
def selectNodes (root : Node) (p : Node → Bool) : List Node :=
  ((allLocs root).map Loc.cur).filter (fun n => n.isElem && p n)

end SiteMapper

namespace SiteMapper

/-! ## Crawler data model (`crawler.ts` lines 6–49) -/

inductive SectionType where
  | heading | content | list | table | form | navigation
deriving Repr, DecidableEq

/-- Source `crawler.ts` lines 6–12: `PageSection`. -/
structure PageSection where
  type : SectionType
  level : Option Nat
  title : String
  content : String
  position : Nat
deriving Repr, DecidableEq

/-- A `PageSection` before the `position: position++` bookkeeping of its
emitting loop assigns the ordinal. -/
structure ProtoSection where
  type : SectionType
  level : Option Nat
  title : String
  content : String
deriving Repr, DecidableEq

/-- The `position++` counter: number consecutive sections from `start`. -/
def numberFrom (start : Nat) : List ProtoSection → List PageSection
  | [] => []
  | s :: rest => ⟨s.type, s.level, s.title, s.content, start⟩ :: numberFrom (start + 1) rest

/-- Source `crawler.ts` lines 14–21: `PageImage`. -/
structure PageImage where
  src : String
  alt : String
  title : String
  width : Option Nat
  height : Option Nat
  position : Nat
deriving Repr, DecidableEq

/-- A `PageImage` before position assignment. -/
structure ProtoImage where
  src : String
  alt : String
  title : String
  width : Option Nat
  height : Option Nat
deriving Repr, DecidableEq

def numberImagesFrom (start : Nat) : List ProtoImage → List PageImage
  | [] => []
  | i :: rest => ⟨i.src, i.alt, i.title, i.width, i.height, start⟩ :: numberImagesFrom (start + 1) rest

/-! ## Small helpers shared by the extractors -/

/-- JavaScript `arr.join(sep)`. -/
def joinSep (sep : String) : List String → String
  | [] => ""
  | [x] => x
  | x :: rest => x ++ sep ++ joinSep sep rest

def headingTags : List String := ["h1", "h2", "h3", "h4", "h5", "h6"]

def isHeadingNode (n : Node) : Bool := headingTags.contains n.tagName

/-- Model of `parseInt(tagName.charAt(1))` for an `hN` tag. -/
def headingLevelOf (tag : String) : Nat :=
  match tag.data with
  | _ :: c :: _ => c.toNat - '0'.toNat
  | _ => 0

/-- JavaScript `parseInt` on the attribute strings the crawler feeds it
(leading decimal digits; `none` is `NaN`). -/
def jsParseInt (s : String) : Option Nat :=
  let ds := (jsTrim s).data.takeWhile Char.isDigit
  if ds.isEmpty then none
  else some (ds.foldl (fun acc c => acc * 10 + (c.toNat - '0'.toNat)) 0)

/-- Source `crawler.ts` lines 805–808: `truncateText(text, maxLength)`. -/
def truncateText (t : String) (maxLength : Nat) : String :=
  if t = "" then ""
  else if t.length > maxLength then jsSubstringTo t maxLength ++ "..." else t

/-! ## Header extraction (`crawler.ts` lines 581–614) -/

/-- Selector `'header, .header, #header, #site-header, .site-header'`. -/
def headerSelPred (n : Node) : Bool :=
  n.tagName == "header" || n.hasClass "header" || n.hasId "header"
    || n.hasId "site-header" || n.hasClass "site-header"

/-- Selector `'a, .menu-item'`. -/
def navLinkPred (n : Node) : Bool := n.tagName == "a" || n.hasClass "menu-item"

/-- Selector `'nav, .nav, .menu'` (removed before taking the header text). -/
def navRemovePred (n : Node) : Bool :=
  n.tagName == "nav" || n.hasClass "nav" || n.hasClass "menu"

/-- Model of `extractHeaderContent`: at most one `navigation` section for the first
header-like container. -/
def extractHeaderContent (root : Node) (startPosition : Nat) : List PageSection :=
  match (selectNodes root headerSelPred).head? with
  | none => []
  | some header =>
    let navLinks := dedupKeepFirst
      (((findNodes header navLinkPred).map (fun l => jsTrim l.textContent)).filter
        (fun t => t ≠ "" && t.length > 1 && t.length < 50))
    let headerText := collapseWs (jsTrim (textExceptList navRemovePred header.childNodes))
    if navLinks.length > 0 || headerText.length > 10 then
      let content := joinSep "\n"
        (([if headerText ≠ "" then "Header Text: " ++ headerText else "",
           if navLinks.length > 0 then "Navigation: " ++ joinSep " | " navLinks else ""]).filter
          (fun s => s ≠ ""))
      numberFrom startPosition [⟨.navigation, none, "🔝 HEADER SECTION", content⟩]
    else []

/-! ## Footer extraction (`crawler.ts` lines 772–803) -/

/-- Selector `'footer, .footer, #footer, .site-footer'`. -/
def footerSelPred (n : Node) : Bool :=
  n.tagName == "footer" || n.hasClass "footer" || n.hasId "footer" || n.hasClass "site-footer"

/-- One step of the `$footer.contents().each(...)` fold: keep the text of a
link-free `p`/`div` child when it looks like copyright/contact data. -/
def footerNodeText (acc : String) (n : Node) : String :=
  if (n.tagName == "p" || n.tagName == "div")
      && (findNodes n (fun m => m.tagName == "a")).isEmpty then
    let text := jsTrim n.textContent
    if jsIncludes text "©" || jsIncludes text "copyright" || jsIncludes text "@"
        || jsIncludes text "+91" then
      acc ++ text ++ " "
    else acc
  else acc

/-- Model of `extractFooterContent`: at most one `navigation` section for the first
footer-like container. -/
def extractFooterContent (root : Node) (startPosition : Nat) : List PageSection :=
  match (selectNodes root footerSelPred).head? with
  | none => []
  | some footer =>
    let footerText := collapseWs (jsTrim (footer.childNodes.foldl footerNodeText ""))
    if footerText ≠ "" && footerText.length > 20 then
      numberFrom startPosition [⟨.navigation, none, "🔽 FOOTER SECTION", truncateText footerText 300⟩]
    else []

/-! ## Exact-content sectioning (`crawler.ts` lines 1121–1182) -/

/-- The later siblings of a located element (document order). -/
def sibsAfter (l : Loc) : List Node :=
  match l.crumbs with
  | [] => []
  | c :: _ => c.after

/-- The earlier siblings of a located element (nearest first), the universe
of cheerio `.prevAll(...)`. -/
def sibsBefore (l : Loc) : List Node :=
  match l.crumbs with
  | [] => []
  | c :: _ => c.before

/-- The `while ($next.length > 0)` walk of `createSectionsFromExactContent`:
follow `.next()` through the sibling elements, accumulating text longer than
10 characters, stopping at a heading of the same or higher level.  The
`.next()` chain enumerates exactly the element nodes of the sibling list, so
the walk is recursion over that list (text nodes are skipped as `.next()`
does). -/
def sectionContentLoop (level : Nat) (acc : String) : List Node → String
  | [] => acc
  | n :: rest =>
    if !n.isElem then sectionContentLoop level acc rest
    else if isHeadingNode n && headingLevelOf n.tagName ≤ level then acc
    else
      let text := jsTrim n.textContent
      let acc' := if text ≠ "" && text.length > 10 then acc ++ text ++ "\n" else acc
      sectionContentLoop level acc' rest

/-- Model of `createSectionsFromExactContent($)`: heading-partitioned sections in
document order, then standalone paragraphs (text longer than 20 characters,
no preceding heading sibling). -/
def createSectionsFromExactContent (root : Node) : List PageSection :=
  let headingSecs : List ProtoSection :=
    (selectLocs root isHeadingNode).filterMap (fun h =>
      let headingText := jsTrim h.cur.textContent
      let level := headingLevelOf h.cur.tagName
      if headingText ≠ "" then
        some ⟨.heading, some level, headingText, jsTrim (sectionContentLoop level "" (sibsAfter h))⟩
      else none)
  let paraSecs : List ProtoSection :=
    (selectLocs root (fun n => n.tagName == "p")).filterMap (fun p =>
      let text := jsTrim p.cur.textContent
      let hasParentHeading := (sibsBefore p).any isHeadingNode
      if text ≠ "" && text.length > 20 && !hasParentHeading then
        some ⟨.content, none, "Paragraph", text⟩
      else none)
  numberFrom 0 (headingSecs ++ paraSecs)

end SiteMapper


namespace SiteMapper

/-! ## Main-content extraction (`crawler.ts` lines 616–770) -/

/-- Selector `'.elementor-widget-container, .elementor-text-editor'`. -/
def elementorContainerPred (n : Node) : Bool :=
  n.hasClass "elementor-widget-container" || n.hasClass "elementor-text-editor"

/-- Selector `'.elementor-element, .elementor-container'`. -/
def elementorParentPred (n : Node) : Bool :=
  n.hasClass "elementor-element" || n.hasClass "elementor-container"

/-- Lines 620–630: the `mainSelectors` list, as zipper predicates
(`'article .content'` needs the ancestor chain). -/
def mainSelectorPreds : List (Loc → Bool) :=
  [ fun l => l.cur.tagName == "main" && l.cur.hasId "main",
    fun l => l.cur.tagName == "main" && l.cur.hasClass "site-main",
    fun l => l.cur.tagName == "main" && l.cur.attr "role" == some "main",
    fun l => l.cur.tagName == "main",
    fun l => l.cur.hasClass "main-content",
    fun l => l.cur.hasId "main-content",
    fun l => l.cur.hasClass "entry-content",
    fun l => l.cur.hasClass "post-content",
    fun l => l.cur.hasClass "content" && l.crumbs.any (fun c => c.tag == "article") ]

/-- Loop `for (const selector of mainSelectors) { $(selector).first() ... }`:
the first selector with a non-empty selection wins. -/
def firstMatchLoc (root : Node) : List (Loc → Bool) → Option Loc
  | [] => none
  | p :: rest =>
    match ((allLocs root).filter (fun l => l.cur.isElem && p l)).head? with
    | some l => some l
    | none => firstMatchLoc root rest

/-- The `$contentContainer.each(...)` body (lines 660–696): list items, then
paragraphs, then raw text as a fallback. -/
def processContentContainer (content : String) (container : Node) : String :=
  let listItems := (((findNodes container (fun n => n.tagName == "li")).map
      (fun li => jsTrim li.textContent)).filter (fun t => t ≠ "" && t.length > 2)).map
      (fun t => "• " ++ t)
  let paragraphs := ((findNodes container (fun n => n.tagName == "p")).map
      (fun p => jsTrim p.textContent)).filter (fun t => t ≠ "" && t.length > 10)
  let content := if listItems.length > 0 then content ++ joinSep "\n" listItems ++ "\n" else content
  let content := if paragraphs.length > 0 then content ++ joinSep "\n\n" paragraphs ++ "\n" else content
  if listItems.length == 0 && paragraphs.length == 0 then
    let rawText := jsTrim container.textContent
    if rawText ≠ "" && rawText.length > 10 then content ++ rawText ++ "\n" else content
  else content

/-- The hard-coded host prefixed to non-`http` inline image sources
(line 705). -/
def ssfHost : String := "https://www.ssfplastics.com"

/-- Lines 703–707: format one inline image reference found near a heading. -/
def formatInlineImage (src alt : String) : String :=
  "🖼️ " ++ alt ++ ": " ++ (if jsStartsWith src "http" then src else ssfHost ++ src)

/-- Lines 700–708: the `$next.find('img').each(...)` body. -/
def inlineImageToken (n : Node) : Option String :=
  let alt := match n.attr "alt" with
    | some a => if a ≠ "" then a else "Image"
    | none => "Image"
  match n.attr "src" with
  | none => none
  | some src => if src ≠ "" then some (formatInlineImage src alt) else none

/-- The `while ($next.length && attempts < 5)` sibling walk (lines 650–712):
the loop runs at most 5 iterations (`remaining` is `5 - attempts`), breaks
after advancing once more than 2000 characters of content accumulated, and
collects Elementor container text plus inline image tokens. -/
def mainSiblingLoop : Nat → Option Loc → String → List String → String × List String
  | 0, _, content, images => (content, images)
  | _ + 1, none, content, images => (content, images)
  | remaining + 1, some nxt, content, images =>
    let containers := findNodes nxt.cur elementorContainerPred
    let content' := if containers.length > 0 then containers.foldl processContentContainer content
                    else content
    let images' := images ++ (findNodes nxt.cur (fun n => n.tagName == "img")).filterMap inlineImageToken
    if content'.length > 2000 then (content', images')
    else mainSiblingLoop remaining nxt.nextSib content' images'

/-- Lines 717–736: the `$headingParent.find('.elementor-widget-container')`
`.each(...)` body. -/
def processParentContainer (content : String) (container : Node) : String :=
  let containerText := jsTrim container.textContent
  if containerText ≠ "" && containerText.length > 10 && !(jsIncludes content containerText) then
    let listItems := (((findNodes container (fun n => n.tagName == "li")).map
        (fun li => jsTrim li.textContent)).filter (fun t => t ≠ "" && t.length > 2)).map
        (fun t => "• " ++ t)
    if listItems.length > 0 then content ++ joinSep "\n" listItems ++ "\n"
    else content ++ containerText ++ "\n"
  else content

/-- Lines 714–737: additional content from the heading's closest Elementor
parent, excluding the heading's own widget container (`.not(...)` compares
node identity, i.e. zipper equality). -/
def mainParentBlock (heading : Loc) (content : String) : String :=
  match heading.closest elementorParentPred with
  | none => content
  | some headingParent =>
    let containers := headingParent.descLocs.filter
      (fun l => l.cur.isElem && l.cur.hasClass "elementor-widget-container")
    let containers :=
      match heading.closest (fun n => n.hasClass "elementor-widget-container") with
      | some x => containers.filter (fun l => !(locBEq l x))
      | none => containers
    containers.foldl (fun c l => processParentContainer c l.cur) content

/-- One heading's section in `extractMainContent` (lines 638–764); `none`
when the title filter (empty, or containing `'about us'` / `'quick links'`
case-insensitively) rejects the heading. -/
def mainHeadingSection (heading : Loc) : Option ProtoSection :=
  let level := headingLevelOf heading.cur.tagName
  let title := jsTrim heading.cur.textContent
  if title ≠ "" && !(jsIncludes (jsToLower title) "about us")
      && !(jsIncludes (jsToLower title) "quick links") then
    let start := match heading.parent with
      | none => none
      | some par => par.nextSib
    let contentImages := mainSiblingLoop 5 start "" []
    let images := contentImages.2
    let content := mainParentBlock heading contentImages.1
    let content := collapseWs (jsTrim content)
    let fullContent :=
      if content ≠ "" && content.length > 10 then
        content ++ (if images.length > 0 then "\n\n" ++ joinSep "\n" images else "")
      else
        if images.length > 0 then joinSep "\n" images
        else "No detailed content found for this section"
    some ⟨.heading, some level, "📝 " ++ title, fullContent⟩
  else none

/-- Model of `extractMainContent`: heading-driven sections from the first matching
main-content container. -/
def extractMainContent (root : Node) (startPosition : Nat) : List PageSection :=
  match firstMatchLoc root mainSelectorPreds with
  | none => []
  | some mainLoc =>
    numberFrom startPosition
      ((mainLoc.descLocs.filter (fun l => isHeadingNode l.cur)).filterMap mainHeadingSection)

/-! ## Page-level section aggregation (`crawler.ts` lines 563–579) -/

/-- Model of `extractPageSections($)`: header, then main content, then footer, with
`position` reset to `sections.length` between the phases. -/
def extractPageSections (root : Node) : List PageSection :=
  let s1 := extractHeaderContent root 0
  let s2 := extractMainContent root s1.length
  let s3 := extractFooterContent root (s1 ++ s2).length
  s1 ++ s2 ++ s3

/-! ## Auxiliary extraction (`crawler.ts` lines 810–897) -/

/-- Model of `extractHeadings($)` (lines 833–845). -/
def extractHeadings (root : Node) : List (Nat × String) :=
  (selectNodes root isHeadingNode).filterMap (fun n =>
    let text := jsTrim n.textContent
    if text ≠ "" then some (headingLevelOf n.tagName, text) else none)

/-- JavaScript `x || d` for an optional attribute string. -/
def jsOrDefault (o : Option String) (d : String) : String :=
  match o with
  | some s => if s ≠ "" then s else d
  | none => d

/-- Model of `extractImages($, currentUrl)` (lines 810–831): every `img` with a
truthy `src`, the source resolved against the page URL. -/
def extractImages (root : Node) (currentUrl : String) : List PageImage :=
  let dim := fun (a : Option String) =>
    match jsParseInt (jsOrDefault a "0") with
    | none => none
    | some 0 => none
    | some k => some k
  numberImagesFrom 0 ((selectNodes root (fun n => n.tagName == "img")).filterMap (fun n =>
    match n.attr "src" with
    | none => none
    | some src =>
      if src ≠ "" then
        some ⟨resolveUrl src currentUrl, jsOrDefault (n.attr "alt") "",
          jsOrDefault (n.attr "title") "", dim (n.attr "width"), dim (n.attr "height")⟩
      else none))

def crumbHasClass (cls : String) (c : Crumb) : Bool :=
  Node.hasClass (.elem c.tag c.attrs .nil) cls

def crumbHasId (idv : String) (c : Crumb) : Bool :=
  Node.hasId (.elem c.tag c.attrs .nil) idv

/-- Lines 849–856: the `contentSelectors` list of `generateContentSummary`. -/
def summarySelectorPreds : List (Loc → Bool) :=
  [ fun l => l.cur.tagName == "p" && l.crumbs.any (fun c => c.tag == "main"),
    fun l => l.cur.tagName == "p" && l.crumbs.any (fun c => c.tag == "article"),
    fun l => l.cur.tagName == "p" && l.crumbs.any (crumbHasClass "content"),
    fun l => l.cur.tagName == "p" && l.crumbs.any (crumbHasClass "main-content"),
    fun l => l.cur.tagName == "p" && l.crumbs.any (crumbHasId "content"),
    fun l => l.cur.tagName == "p" ]

/-- The selector loop of `generateContentSummary`: first selector whose
first match has more than 100 characters of trimmed text. -/
def pickSummaryText (root : Node) : List (Loc → Bool) → String
  | [] => ""
  | p :: rest =>
    let text := jsTrim (match ((allLocs root).filter (fun l => l.cur.isElem && p l)).head? with
      | some l => l.cur.textContent
      | none => "")
    if text.length > 100 then text else pickSummaryText root rest

/-- Model of `generateContentSummary($)` (lines 847–874). -/
def generateContentSummary (root : Node) : String :=
  let content := pickSummaryText root summarySelectorPreds
  let content :=
    if content = "" then
      jsTrim (collapseWs (selectionText (selectNodes root (fun n => n.tagName == "body"))))
    else content
  if content.length > 300 then jsSubstringTo content 300 ++ "..." else content

/-- Model of `analyzePageStructure($)` (lines 876–897). -/
def analyzePageStructure (root : Node) : String :=
  let count := fun (p : Node → Bool) => (selectNodes root p).length
  let headings := count isHeadingNode
  let paragraphs := count (fun n => n.tagName == "p")
  let images := count (fun n => n.tagName == "img")
  let links := count (fun n => n.tagName == "a")
  let forms := count (fun n => n.tagName == "form")
  let tables := count (fun n => n.tagName == "table")
  let lists := count (fun n => n.tagName == "ul" || n.tagName == "ol")
  joinSep ", " (([
    if headings > 0 then toString headings ++ " headings" else "",
    if paragraphs > 0 then toString paragraphs ++ " paragraphs" else "",
    if images > 0 then toString images ++ " images" else "",
    if links > 0 then toString links ++ " links" else "",
    if forms > 0 then toString forms ++ " forms" else "",
    if tables > 0 then toString tables ++ " tables" else "",
    if lists > 0 then toString lists ++ " lists" else ""]).filter (fun s => s ≠ ""))

/-- Model of `$('title').text().trim()`. -/
def pageTitleOf (root : Node) : String :=
  jsTrim (selectionText (selectNodes root (fun n => n.tagName == "title")))

/-- Model of `$('meta[name="description"]').attr('content') || ''`. -/
def metaDescriptionOf (root : Node) : String :=
  match (selectNodes root
      (fun n => n.tagName == "meta" && n.attr "name" == some "description")).head? with
  | none => ""
  | some m => jsOrDefault (m.attr "content") ""

end SiteMapper


namespace SiteMapper

/-! ## Exact-order content extraction (`crawler.ts` lines 899–1116)

`new URL(href, url)` is called without a guard in this extractor, so a
failed resolution is a thrown exception: the functions return `Option`,
and `none` propagates to the per-page `catch` of the traversal loops. -/

/-- JavaScript `s.toUpperCase()` (ASCII). -/
def jsToUpper (s : String) : String := ⟨s.data.map Char.toUpper⟩

/-- Regex `replace(/\n{3,}/g, '\n\n')`: squeeze runs of three or more newlines
down to two (`run` counts the newlines already kept in the current run). -/
def squeezeNlAux (run : Nat) : List Char → List Char
  | [] => []
  | c :: rest =>
    if c == '\n' then
      if run ≥ 2 then squeezeNlAux run rest
      else '\n' :: squeezeNlAux (run + 1) rest
    else c :: squeezeNlAux 0 rest

/-- Selector `'header, nav, .header, .navigation, .navbar, .menu'`
(line 980). -/
def navElementsPred (n : Node) : Bool :=
  n.tagName == "header" || n.tagName == "nav" || n.hasClass "header"
    || n.hasClass "navigation" || n.hasClass "navbar" || n.hasClass "menu"

/-- Lines 989–1002: the `$el.find('a').each(...)` body of
`extractNavigationElements`; `none` models a thrown `TypeError`. -/
def navLinksOf (url : String) : List Node → Option (List String)
  | [] => some []
  | link :: rest =>
    let linkText := jsTrim link.textContent
    if linkText ≠ "" && linkText.length > 2 then
      let entry : Option String :=
        match link.attr "href" with
        | some href =>
          if href ≠ "" then
            if jsStartsWith href "http" then some ("📎 " ++ linkText ++ " → " ++ href)
            else
              match resolveURLCore href url with
              | none => none
              | some absoluteHref => some ("📎 " ++ linkText ++ " → " ++ absoluteHref)
          else some ("📎 " ++ linkText)
        | none => some ("📎 " ++ linkText)
      match entry with
      | none => none
      | some e => (navLinksOf url rest).map (fun tail => e :: tail)
    else navLinksOf url rest

/-- Lines 980–1003: each header/nav-like element contributes its own text
(when longer than 10 characters) followed by its link entries. -/
def navElementEntries (url : String) : List Node → Option (List String)
  | [] => some []
  | elNode :: rest =>
    let text := jsTrim elNode.textContent
    let own := if text ≠ "" && text.length > 10 then [text] else []
    match navLinksOf url (findNodes elNode (fun n => n.tagName == "a")) with
    | none => none
    | some links =>
      (navElementEntries url rest).map (fun tail => own ++ links ++ tail)

/-- Model of `extractNavigationElements($, url)` (lines 976–1006). -/
def extractNavigationElements (root : Node) (url : String) : Option String :=
  (navElementEntries url (selectNodes root navElementsPred)).map (joinSep "\n")

/-- The walk's mutable accumulators: emitted content blocks (in order) and
the `processedElements` fingerprint set. -/
structure WalkState where
  content : List String
  processed : List String
deriving Repr

def WalkState.push (st : WalkState) (s : String) : WalkState :=
  { st with content := st.content ++ [s] }

def WalkState.pushOnce (st : WalkState) (fingerprint s : String) : WalkState :=
  if st.processed.contains fingerprint then st
  else { content := st.content ++ [s], processed := st.processed ++ [fingerprint] }

/-- Model of `extractListContent` (lines 1011–1031); `index` is the position of each
`li` among all `li` descendants (the `each` index), whether or not its text
passes the filter. -/
def extractListContent (n : Node) (st : WalkState) (tagName : String) : WalkState :=
  let lis := findNodes n (fun m => m.tagName == "li")
  let listItems := (lis.enum.filterMap (fun it =>
    let itemText := jsTrim it.2.textContent
    if itemText ≠ "" && itemText.length > 2 then
      some ("  " ++ (if tagName == "ul" then "•" else toString (it.1 + 1) ++ ".") ++ " " ++ itemText)
    else none))
  if listItems.length > 0 then
    st.pushOnce ("list_" ++ jsSubstringTo (listItems.headD "") 30)
      ("\n📋 === " ++ jsToUpper tagName ++ " LIST ===\n" ++ joinSep "\n" listItems ++ "\n")
  else st

/-- Model of `extractDivContent` (lines 1036–1056). -/
def extractDivContent (n : Node) (st : WalkState) : WalkState :=
  let divText := jsTrim n.textContent
  if divText ≠ "" && divText.length > 20 then
    let hasStructure := (findNodes n isHeadingNode).length > 0
      || (findNodes n (fun m => m.tagName == "ul" || m.tagName == "ol")).length > 0
      || (findNodes n (fun m => m.tagName == "img")).length > 0
    st.pushOnce ("div_" ++ jsSubstringTo divText 30)
      (if hasStructure then "\n📦 === DIV SECTION ===\n" ++ divText ++ "\n" else divText)
  else st

/-- Model of `extractHeadingContent` (lines 1061–1071). -/
def extractHeadingContent (n : Node) (st : WalkState) (tagName : String) : WalkState :=
  let headingText := jsTrim n.textContent
  if headingText ≠ "" && headingText.length > 2 then
    st.pushOnce (tagName ++ "_" ++ jsSubstringTo headingText 30)
      ("\n=== " ++ jsToUpper tagName ++ " HEADING ===\n" ++ headingText ++ "\n")
  else st

/-- Model of `extractParagraphContent` (lines 1076–1086). -/
def extractParagraphContent (n : Node) (st : WalkState) : WalkState :=
  let paragraphText := jsTrim n.textContent
  if paragraphText ≠ "" && paragraphText.length > 10 then
    st.pushOnce ("p_" ++ jsSubstringTo paragraphText 30) ("\n" ++ paragraphText ++ "\n")
  else st

/-- Model of `extractImageContent` (lines 1091–1101); `none` models the `TypeError`
of the unguarded `new URL(src, url)`. -/
def extractImageContent (n : Node) (st : WalkState) (url : String) : Option WalkState :=
  let alt := jsOrDefault (n.attr "alt") "No alt text"
  let title := jsOrDefault (n.attr "title") ""
  match n.attr "src" with
  | none => some st
  | some src =>
    if src ≠ "" then
      let absOpt := if jsStartsWith src "http" then some src else resolveURLCore src url
      match absOpt with
      | none => none
      | some absoluteSrc =>
        some (st.push ("\n🖼️ IMAGE: " ++ alt ++ "\n📷 URL: " ++ absoluteSrc
          ++ (if title ≠ "" then "\n📝 Title: " ++ title else "") ++ "\n"))
    else some st

/-- Model of `extractTableContent` (lines 1106–1116). -/
def extractTableContent (n : Node) (st : WalkState) : WalkState :=
  let tableText := jsTrim n.textContent
  if tableText ≠ "" && tableText.length > 20 then
    st.pushOnce ("table_" ++ jsSubstringTo tableText 30)
      ("\n📊 === TABLE CONTENT ===\n" ++ tableText ++ "\n")
  else st

/-- Line 939: elements whose subtrees the walk skips entirely. -/
def skipWalkTags : List String :=
  ["script", "style", "noscript", "meta", "link", "head", "nav", "header"]

mutual

/-- The `$parent.children().each(...)` of `walkElementsInOrder`
(lines 934–970): `.children()` yields element nodes only. -/
def walkChildren (url : String) (st : WalkState) : NodeList → Option WalkState
  | .nil => some st
  | .cons n rest =>
    match walkOne url st n with
    | none => none
    | some st' => walkChildren url st' rest

/-- One child element: dispatch on the tag, then recurse into its children. -/
def walkOne (url : String) (st : WalkState) : Node → Option WalkState
  | .text _ => some st
  | .elem tag attrs cs =>
    if skipWalkTags.contains tag then some st
    else
      let dispatched : Option WalkState :=
        if tag == "ul" || tag == "ol" then some (extractListContent (.elem tag attrs cs) st tag)
        else if tag == "div" then some (extractDivContent (.elem tag attrs cs) st)
        else if headingTags.contains tag then
          some (extractHeadingContent (.elem tag attrs cs) st tag)
        else if tag == "p" then some (extractParagraphContent (.elem tag attrs cs) st)
        else if tag == "img" then extractImageContent (.elem tag attrs cs) st url
        else if tag == "table" then some (extractTableContent (.elem tag attrs cs) st)
        else
          let allText := jsTrim (Node.textContent (.elem tag attrs cs))
          if allText ≠ "" && allText.length > 10 then
            some (st.pushOnce (tag ++ "_" ++ jsSubstringTo allText 30) allText)
          else some st
      match dispatched with
      | none => none
      | some st1 => walkChildren url st1 cs

end

/-- Model of `extractExactContentInOrder($, url)` (lines 903–922). -/
def extractExactContentInOrder (root : Node) (url : String) : Option String :=
  match extractNavigationElements root url with
  | none => none
  | some navigationContent =>
    let content0 : List String :=
      if navigationContent ≠ "" then
        ["\n🧭 === NAVIGATION ELEMENTS ===\n" ++ navigationContent ++ "\n"]
      else []
    let st0 : WalkState := ⟨content0, []⟩
    let walked : Option WalkState :=
      match (selectNodes root (fun n => n.tagName == "body")).head? with
      | none => some st0
      | some body =>
        match body with
        | .elem _ _ cs => walkChildren url st0 cs
        | .text _ => some st0
    match walked with
    | none => none
    | some st => some (jsTrim ⟨squeezeNlAux 0 (joinSep "\n" st.content).data⟩)

end SiteMapper

namespace SiteMapper

/-! ## Traversal controller (`crawler.ts` lines 51–361, 426–509)

Network and AI effects are an explicit environment of oracles; `axios`
failures carry the best-known HTTP status (`none` for non-HTTP errors,
mirroring `error.response?.status` being undefined). -/

/-- The result of `glmService.analyzePageStructureOnly` (the fields the
crawler reads). -/
structure AIResult where
  detectedPlatform : String
  hasElementor : Bool
  summary : String
deriving Repr, DecidableEq

/-- Source `crawler.ts` lines 23–40: `CrawledPage` — the per-URL result record. -/
structure CrawledPage where
  url : String
  title : Option String := none
  type : Option String := none
  statusCode : Option Nat := none
  sections : Option (List PageSection) := none
  images : Option (List PageImage) := none
  metaDescription : Option String := none
  headings : Option (List (Nat × String)) := none
  contentSummary : Option String := none
  pageStructure : Option String := none
  aiAnalysis : Option AIResult := none
  detectedPlatform : Option String := none
  hasElementor : Option Bool := none
  completeContent : Option String := none
deriving Repr, DecidableEq

/-- Source `crawler.ts` lines 42–49: `CrawlOptions` (the `onPageProcessed`
callback is an external effect that never alters the returned list —
callback errors are caught and logged — so it is not modelled). -/
structure CrawlOptions where
  maxPages : Nat
  includeImages : Bool
  deepAnalysis : Bool
  useAI : Bool := false
  glmApiKey : Option String := none

/-- A sitemap XML document as seen through the three selections the crawler
makes of it: the number of `sitemap` elements, the texts of `sitemap > loc`
entries and the texts of `url > loc` entries. -/
structure SitemapDoc where
  sitemapElemCount : Nat
  sitemapLocs : List String
  urlLocs : List String

/-- Outcome of `axios.get` on a page: a 2xx/3xx response with a parsed
document, or a thrown error with the best-known HTTP status
(`error.response?.status`, `none` when there is none). -/
inductive FetchOutcome where
  | success (status : Nat) (doc : Node)
  | failure (httpStatus : Option Nat)

/-- The network/AI environment of one run. -/
structure Env where
  /-- Oracle for `axios.get` + `cheerio.load(xmlMode)` of a sitemap URL; `none` is a
  fetch error or unparsable response. -/
  fetchSitemap : String → Option SitemapDoc
  /-- Oracle for `axios.get` + `cheerio.load` of a page URL. -/
  fetchPage : String → FetchOutcome
  /-- Oracle for `glmService.analyzePageStructureOnly` keyed by page URL; `none` means
  the call threw. -/
  aiAnalyze : String → Option AIResult

/-- Line 55: `MAX_SITEMAP_DEPTH`. -/
def MAX_SITEMAP_DEPTH : Nat := 2

/-- Line 480's leaf cap. -/
def SITEMAP_PAGE_LIMIT : Nat := 500

/-- Selection `$('sitemap > loc')` texts, trimmed, truthy ones kept (lines 451–456). -/
def sitemapLocEntries (doc : SitemapDoc) : List String :=
  (doc.sitemapLocs.map jsTrim).filter (fun s => s ≠ "")

/-- Selection `$('url > loc')` texts, trimmed, truthy and crawlable ones kept
(lines 459–464). -/
def urlLocEntries (doc : SitemapDoc) (baseUrl : String) : List String :=
  (doc.urlLocs.map jsTrim).filter (fun u => u ≠ "" && shouldCrawlUrl baseUrl u)

/-- Lines 495–500: `urls.map(url => ({url, title: '', type:
determinePageType(url, ''), statusCode: 200}))`; `none` when `new URL(url)`
throws for some entry (the exception is caught by the candidate loop). -/
def sitemapPagesOf (urls : List String) : Option (List CrawledPage) :=
  urls.mapM (fun u => (parseURL u).map (fun pu =>
    ({ url := u, title := some "", type := some (determinePageTypeCore pu ""),
       statusCode := some 200 } : CrawledPage)))

/-- Model of `parseSitemap(websiteUrl, true)` (lines 426–509 with
`isIndividualSitemap = true`): the only candidate is the URL itself, and the
index-recursion branch (line 468) is unreachable because it requires
`!isIndividualSitemap` — so this call never recurses. -/
def parseIndividualSitemap (env : Env) (baseUrl : String) (sitemapDepth : Nat)
    (websiteUrl : String) : List CrawledPage :=
  if sitemapDepth ≥ MAX_SITEMAP_DEPTH then []
  else
    match env.fetchSitemap websiteUrl with
    | none => []
    | some doc =>
      let urls := sitemapLocEntries doc ++ urlLocEntries doc baseUrl
      if urls.length > 0 then
        match sitemapPagesOf urls with
        | some pages => pages
        | none => []
      else []

/-- Lines 473–487: the `for (const individualSitemapUrl of urls.slice(0, 5))`
loop, with the early stop once the accumulated page count reaches 500
(checked only after appending a whole child's pages). -/
def parseSitemapChildren (env : Env) (baseUrl : String) (sitemapDepth : Nat) :
    List String → List CrawledPage → List CrawledPage
  | [], allPages => allPages
  | childUrl :: rest, allPages =>
    let individualPages := parseIndividualSitemap env baseUrl sitemapDepth childUrl
    let allPages' := allPages ++ individualPages
    if allPages'.length ≥ SITEMAP_PAGE_LIMIT then allPages'
    else parseSitemapChildren env baseUrl sitemapDepth rest allPages'

/-- Lines 442–505: the candidate-URL loop of the top-level
`parseSitemap(websiteUrl)` call (`isIndividualSitemap = false`). -/
def parseSitemapCandidates (env : Env) (baseUrl : String) (sitemapDepth : Nat) :
    List String → List CrawledPage
  | [] => []
  | sitemapUrl :: rest =>
    match env.fetchSitemap sitemapUrl with
    | none => parseSitemapCandidates env baseUrl sitemapDepth rest
    | some doc =>
      let urls := sitemapLocEntries doc ++ urlLocEntries doc baseUrl
      if urls.length > 0 then
        if doc.sitemapElemCount > 0 then
          -- sitemap index: `this.sitemapDepth++`, recurse into the first 5
          -- entries, return the accumulated pages
          parseSitemapChildren env baseUrl (sitemapDepth + 1) (urls.take 5) []
        else
          match sitemapPagesOf urls with
          | some pages => pages
          | none => parseSitemapCandidates env baseUrl sitemapDepth rest
      else parseSitemapCandidates env baseUrl sitemapDepth rest

/-- Model of `parseSitemap(websiteUrl)` as called from the traversal entry points
(lines 73 and 248), with the depth guard of line 428. -/
def parseSitemap (env : Env) (baseUrl : String) (sitemapDepth : Nat) : List CrawledPage :=
  if sitemapDepth ≥ MAX_SITEMAP_DEPTH then []
  else
    parseSitemapCandidates env baseUrl sitemapDepth
      [baseUrl ++ "/sitemap.xml", baseUrl ++ "/sitemap_index.xml",
       baseUrl ++ "/sitemap-index.xml", baseUrl ++ "/sitemaps.xml"]

/-- Truthiness of `options.useAI && options.glmApiKey` (lines 67–70): the
`glmService` collaborator exists. -/
def hasGlmKey (options : CrawlOptions) : Bool :=
  options.useAI && (match options.glmApiKey with | some k => k ≠ "" | none => false)

/-- The placeholder record pushed for a failed page (lines 142–148, 216–221,
338–343). -/
def failedPage (pageUrl : String) (httpStatus : Option Nat) : CrawledPage :=
  { url := pageUrl, title := some "Failed to load",
    statusCode := some (httpStatus.getD 0),
    contentSummary := some "Page could not be analyzed due to loading error" }

/-- Model of `performTraditionalAnalysis(pageData, $, options, url)`
(lines 363–380); `none` models a thrown exception from
`extractExactContentInOrder`. -/
def performTraditionalAnalysis (pageData : CrawledPage) (root : Node)
    (options : CrawlOptions) (url : String) : Option CrawledPage :=
  let step1 : Option CrawledPage :=
    if options.deepAnalysis then
      match extractExactContentInOrder root url with
      | none => none
      | some cc =>
        some { pageData with
          sections := some (extractPageSections root),
          metaDescription := some (metaDescriptionOf root),
          headings := some (extractHeadings root),
          contentSummary := some (generateContentSummary root),
          pageStructure := some (analyzePageStructure root),
          completeContent := some cc }
    else some pageData
  step1.map (fun pd =>
    if options.includeImages then { pd with images := some (extractImages root url) } else pd)

/-- The body of the sitemap-driven per-page loops (lines 81–149 and
262–356, which are identical up to logging and the persistence callback):
always exactly one `CrawledPage` per attempted URL. -/
def processSitemapPage (env : Env) (options : CrawlOptions) (glmService : Bool)
    (pageUrl : String) : CrawledPage :=
  match env.fetchPage pageUrl with
  | .failure httpStatus => failedPage pageUrl httpStatus
  | .success status doc =>
    match parseURL pageUrl with
    | none =>
      -- `determinePageType` threw `TypeError` (non-axios), caught by the
      -- same per-page catch: status falls back to 0
      failedPage pageUrl none
    | some pu =>
      let title := pageTitleOf doc
      let pageData : CrawledPage :=
        { url := pageUrl, title := some title,
          type := some (determinePageTypeCore pu title), statusCode := some status }
      let processed : Option CrawledPage :=
        if options.useAI && glmService && options.deepAnalysis then
          -- AI path (lines 106–130): exact content, then the AI structure
          -- call; an AI failure falls back to the traditional analysis
          match extractExactContentInOrder doc pageUrl with
          | none => none  -- the fallback re-runs the same extraction and rethrows
          | some cc =>
            match env.aiAnalyze pageUrl with
            | some ai =>
              some { pageData with
                completeContent := some cc, aiAnalysis := some ai,
                detectedPlatform := some ai.detectedPlatform,
                hasElementor := some ai.hasElementor,
                contentSummary := some ai.summary,
                sections := some (createSectionsFromExactContent doc) }
            | none =>
              performTraditionalAnalysis { pageData with completeContent := some cc }
                doc options pageUrl
        else performTraditionalAnalysis pageData doc options pageUrl
      match processed with
      | some pd => pd
      | none => failedPage pageUrl none

/-- Model of the `$('a[href]').each(...)` link collection of the fallback loop
(lines 202–210): resolve each truthy href and keep the crawlable ones. -/
def extractCrawlableLinks (doc : Node) (currentUrl baseUrl : String) : List String :=
  (selectNodes doc (fun n => n.tagName == "a" && (n.attr "href").isSome)).filterMap
    (fun n =>
      match n.attr "href" with
      | some href =>
        if href ≠ "" then
          let absoluteUrl := resolveUrl href currentUrl
          if shouldCrawlUrl baseUrl absoluteUrl then some absoluteUrl else none
        else none
      | none => none)

/-- The fallback link-crawl loop (lines 156–228): pop `toVisit`, skip
visited URLs, fetch, emit exactly one page (degraded on failure), and push
newly discovered crawlable links. -/
def crawlLoop (env : Env) (options : CrawlOptions) (baseUrl : String)
    (visited : List String) (toVisit : List String) (pages : List CrawledPage) :
    List CrawledPage :=
  match toVisit with
  | [] => pages
  | currentUrl :: rest =>
    if h : pages.length < options.maxPages then
      if currentUrl ∈ visited then crawlLoop env options baseUrl visited rest pages
      else
        let visited' := currentUrl :: visited
        match env.fetchPage currentUrl with
        | .failure httpStatus =>
          crawlLoop env options baseUrl visited' rest (pages ++ [failedPage currentUrl httpStatus])
        | .success status doc =>
          match parseURL currentUrl with
          | none =>
            -- `determinePageType` threw: caught, degraded page, links not
            -- collected
            crawlLoop env options baseUrl visited' rest (pages ++ [failedPage currentUrl none])
          | some pu =>
            let title := pageTitleOf doc
            let pageData : CrawledPage :=
              { url := currentUrl, title := some title,
                type := some (determinePageTypeCore pu title), statusCode := some status }
            let pageData :=
              if options.deepAnalysis then
                { pageData with
                  sections := some (extractPageSections doc),
                  metaDescription := some (metaDescriptionOf doc),
                  headings := some (extractHeadings doc),
                  contentSummary := some (generateContentSummary doc),
                  pageStructure := some (analyzePageStructure doc) }
              else pageData
            let pageData :=
              if options.includeImages then
                { pageData with images := some (extractImages doc currentUrl) }
              else pageData
            crawlLoop env options baseUrl visited'
              (rest ++ extractCrawlableLinks doc currentUrl baseUrl) (pages ++ [pageData])
    else pages
termination_by (options.maxPages - pages.length, toVisit.length)
decreasing_by
  · apply Prod.Lex.right
    simp only [List.length_cons]
    omega
  · apply Prod.Lex.left
    simp only [List.length_append, List.length_cons]
    omega
  · apply Prod.Lex.left
    simp only [List.length_append, List.length_cons]
    omega
  · apply Prod.Lex.left
    simp only [List.length_append, List.length_cons]
    omega

/-- Model of `crawlWebsite(websiteUrl, options)` (lines 57–231): sitemap-driven
processing when the sitemap is non-empty, else the fallback crawl seeded
with the website URL.  `none` models the `TypeError` thrown to the caller
by `new URL(websiteUrl)` (line 59). -/
def crawlWebsite (env : Env) (websiteUrl : String) (options : CrawlOptions) :
    Option (List CrawledPage) :=
  match parseURL websiteUrl with
  | none => none
  | some seed =>
    let baseUrl := seed.origin
    let sitemapPages := parseSitemap env baseUrl 0
    if sitemapPages.length > 0 then
      some ((sitemapPages.take options.maxPages).map
        (fun p => processSitemapPage env options (hasGlmKey options) p.url))
    else some (crawlLoop env options baseUrl [] [websiteUrl] [])

/-- Model of `crawlWebsiteWithRealTimeUpdates(websiteUrl, options)` (lines 233–361):
identical page processing; with an empty sitemap it delegates to
`crawlWebsite` (line 252). -/
def crawlWebsiteWithRealTimeUpdates (env : Env) (websiteUrl : String)
    (options : CrawlOptions) : Option (List CrawledPage) :=
  match parseURL websiteUrl with
  | none => none
  | some seed =>
    let baseUrl := seed.origin
    let sitemapPages := parseSitemap env baseUrl 0
    if sitemapPages.length == 0 then crawlWebsite env websiteUrl options
    else
      some ((sitemapPages.take options.maxPages).map
        (fun p => processSitemapPage env options (hasGlmKey options) p.url))

end SiteMapper

namespace SiteMapper

/-! ## Helper lemmas -/

theorem numberFrom_length (start : Nat) (l : List ProtoSection) :
    (numberFrom start l).length = l.length := by
  induction l generalizing start with
  | nil => rfl
  | cons s rest ih => simp [numberFrom, ih]

theorem numberFrom_map_position (start : Nat) (l : List ProtoSection) :
    (numberFrom start l).map PageSection.position = List.range' start l.length := by
  induction l generalizing start with
  | nil => rfl
  | cons s rest ih => simp [numberFrom, List.range'_succ, ih]

theorem mem_numberFrom {s : PageSection} {start : Nat} {l : List ProtoSection}
    (h : s ∈ numberFrom start l) :
    (⟨s.type, s.level, s.title, s.content⟩ : ProtoSection) ∈ l := by
  induction l generalizing start with
  | nil => cases h
  | cons p rest ih =>
    simp only [numberFrom, List.mem_cons] at h
    cases h with
    | inl h => subst h; simp
    | inr h => exact List.mem_cons_of_mem _ (ih h)

/-! ## Claim C7 — the heading/paragraph fixture -/

/-- The spec's fixture: `H1("A") p("x") H1("B") p("y")`. -/
def c7Fixture : Node :=
  el "body" []
    [el "h1" [] [.text "A"], el "p" [] [.text "x"],
     el "h1" [] [.text "B"], el "p" [] [.text "y"]]

/-- C7 counterexample: on the fixture `H1("A")/p("x")/H1("B")/p("y")`,
heading-driven section extraction does **not** give the sections bodies
`"x"` and `"y"` — sibling text is accumulated only when longer than 10
characters (`crawler.ts` line 1146), so both bodies come out empty. -/
theorem c7_claim_counterexample :
    ¬ ((createSectionsFromExactContent c7Fixture).map
        (fun s => (s.title, s.content, s.position)) = [("A", "x", 0), ("B", "y", 1)]) := by
  decide

/-- C7 (amended): the fixture yields exactly two sections, titled `"A"` and
`"B"` at positions 0 and 1, but with **empty** bodies, because the
`text.length > 10` filter drops the one-character paragraph texts. -/
theorem c7_amended_fixture_sections :
    (createSectionsFromExactContent c7Fixture).map
        (fun s => (s.title, s.content, s.position)) = [("A", "", 0), ("B", "", 1)] := by
  rfl

/-! ## Claim C8 — the footer fixture -/

/-- The spec's footer fixture: `<p>© 2024 Acme</p><nav><a href="/x">X</a></nav>`. -/
def c8Fixture : Node :=
  el "body" []
    [el "footer" []
      [el "p" [] [.text "© 2024 Acme"],
       el "nav" [] [el "a" [("href", "/x")] [.text "X"]]]]

/-- The same footer with a copyright line longer than the 20-character
threshold. -/
def c8FixtureLong : Node :=
  el "body" []
    [el "footer" []
      [el "p" [] [.text "© 2024 Acme Corporation, Ltd."],
       el "nav" [] [el "a" [("href", "/x")] [.text "X"]]]]

theorem truncateText_length_le (t : String) (m : Nat) :
    (truncateText t m).length ≤ m + 3 := by
  unfold truncateText
  split
  · simp
  · split
    · have h1 : (jsSubstringTo t m).length ≤ m := by
        have he : (jsSubstringTo t m).length = (t.data.take m).length := rfl
        rw [he, List.length_take]
        omega
      have h2 : (jsSubstringTo t m ++ "...").length = (jsSubstringTo t m).length + 3 := by
        rw [String.length_append]
        have h3 : ("..." : String).length = 3 := rfl
        omega
      omega
    · omega

/-- C8 counterexample: the spec's fixture footer yields **no** footer
section at all — the retained text `"© 2024 Acme"` has length 11, and
`extractFooterContent` only emits a section when the retained text is longer
than 20 characters (`crawler.ts` line 794). -/
theorem c8_claim_counterexample :
    extractFooterContent c8Fixture 0 = [] := by
  rfl

/-- C8 (amended): when the retained copyright text is longer than 20
characters, the footer yields one section containing exactly the copyright
line, the nav link text `"X"` is excluded, and every footer section's
content is truncated to at most 303 characters (300 plus the `"..."`
marker). -/
theorem c8_amended_footer (root : Node) (startPosition : Nat) :
    ((extractFooterContent c8FixtureLong 0).map
        (fun s => (s.title, s.content, s.position)) =
      [("🔽 FOOTER SECTION", "© 2024 Acme Corporation, Ltd.", 0)])
    ∧ (jsIncludes "© 2024 Acme Corporation, Ltd." "X" = false)
    ∧ (∀ s ∈ extractFooterContent root startPosition, s.content.length ≤ 303) := by
  refine ⟨by rfl, by rfl, ?_⟩
  intro s hs
  unfold extractFooterContent at hs
  split at hs
  · cases hs
  · dsimp only at hs
    split at hs
    · simp only [numberFrom, List.mem_singleton] at hs
      subst hs
      exact truncateText_length_le _ _
    · cases hs

/-- C8 amended-claim witness at the long fixture. -/
theorem c8_amended_footer_witness :
    (∀ s ∈ extractFooterContent c8FixtureLong 0, s.content.length ≤ 303) :=
  (c8_amended_footer c8FixtureLong 0).2.2

end SiteMapper

namespace SiteMapper

/-! ## Claim C6 — `position` values -/

theorem range'_triple (a b c : Nat) :
    (List.range' 0 a ++ List.range' a b) ++ List.range' (a + b) c =
      List.range (a + b + c) := by
  have h1 := List.range'_append_1 0 a b
  have h2 := List.range'_append_1 0 (b + a) c
  rw [Nat.zero_add] at h1 h2
  rw [List.range_eq_range', h1, show a + b = b + a from Nat.add_comm a b, h2]
  congr 1
  omega

theorem extractHeaderContent_positions (root : Node) (s : Nat) :
    (extractHeaderContent root s).map PageSection.position =
      List.range' s (extractHeaderContent root s).length := by
  unfold extractHeaderContent
  split
  · rfl
  · dsimp only
    split
    · rw [numberFrom_map_position, numberFrom_length]
    · rfl

theorem extractMainContent_positions (root : Node) (s : Nat) :
    (extractMainContent root s).map PageSection.position =
      List.range' s (extractMainContent root s).length := by
  unfold extractMainContent
  split
  · rfl
  · rw [numberFrom_map_position, numberFrom_length]

theorem extractFooterContent_positions (root : Node) (s : Nat) :
    (extractFooterContent root s).map PageSection.position =
      List.range' s (extractFooterContent root s).length := by
  unfold extractFooterContent
  split
  · rfl
  · dsimp only
    split
    · rw [numberFrom_map_position, numberFrom_length]
    · rfl

/-- C6 (amended): for every document, both section extractors emit
`position` values that are exactly the consecutive insertion-order ordinals
`0, 1, …, n-1` — unique and dense, with no later sort.  (The spec's further
claim that these follow document traversal order is refuted by
`c6_claim_counterexample`.) -/
theorem c6_amended_positions_are_ordinals (root : Node) :
    ((extractPageSections root).map PageSection.position =
      List.range (extractPageSections root).length)
    ∧ ((createSectionsFromExactContent root).map PageSection.position =
      List.range (createSectionsFromExactContent root).length) := by
  constructor
  · unfold extractPageSections
    dsimp only
    rw [List.map_append, List.map_append,
        extractHeaderContent_positions root 0,
        extractMainContent_positions, extractFooterContent_positions,
        List.length_append, List.length_append, List.length_append]
    exact range'_triple _ _ _
  · unfold createSectionsFromExactContent
    dsimp only
    rw [numberFrom_map_position, numberFrom_length, List.range_eq_range']

/-- A document whose first body child is a standalone paragraph and whose
second child is the heading `T`. -/
def c6Doc : Node :=
  el "body" []
    [el "p" [] [.text "This paragraph has more than twenty characters"],
     el "h1" [] [.text "T"]]

/-- C6 counterexample: positions do **not** always increase in document
traversal order.  In `c6Doc` the paragraph precedes the heading in the
document, yet its section is emitted after all heading sections
(`crawler.ts` lines 1164–1179) and receives the larger position: the
output is heading `"T"` at position 0, then the paragraph (the first
document node) at position 1. -/
theorem c6_claim_counterexample :
    (createSectionsFromExactContent c6Doc).map (fun s => (s.title, s.content, s.position)) =
      [("T", "", 0),
       ("Paragraph", "This paragraph has more than twenty characters", 1)] := by
  rfl

end SiteMapper

namespace SiteMapper

/-! ## Claim C4 — `shouldCrawlUrl` -/

/-- Rewriting: `shouldCrawlUrl` as one Boolean conjunction of its four conditions. -/
theorem shouldCrawlUrl_eq_conditions (siteOrigin url : String) :
    shouldCrawlUrl siteOrigin url =
      match parseURL url with
      | none => false
      | some u =>
        decide (u.origin = siteOrigin) && decide (u.hash = "")
          && !(skipExtensions.any (fun ext => jsEndsWith (jsToLower u.pathname) ext))
          && !(skipPaths.any (fun sp => jsStartsWith (jsToLower u.pathname) sp)) := by
  unfold shouldCrawlUrl
  split
  · rename_i h
    rw [h]
    rfl
  · cases hp : parseURL url with
    | none => rfl
    | some u =>
      dsimp only
      split_ifs with h1 h2 h3 h4 <;> simp_all

/-- C4: `shouldCrawlUrl(url)` (the spec's `isCrawlable(url, siteOrigin)`)
returns true iff the URL parses, its origin equals the site origin, it has
no fragment, its lower-cased path neither ends in a skipped extension nor
starts with a skipped administrative prefix; and the spec's five examples
evaluate as claimed. -/
theorem c4_isCrawlable_characterisation :
    (∀ siteOrigin url : String,
      shouldCrawlUrl siteOrigin url = true ↔
        ∃ u : URLParts, parseURL url = some u
          ∧ u.origin = siteOrigin
          ∧ u.hash = ""
          ∧ (skipExtensions.any (fun ext => jsEndsWith (jsToLower u.pathname) ext)) = false
          ∧ (skipPaths.any (fun sp => jsStartsWith (jsToLower u.pathname) sp)) = false)
    ∧ shouldCrawlUrl "https://example.com" "https://example.com/page#section" = false
    ∧ shouldCrawlUrl "https://example.com" "https://example.com/file.pdf" = false
    ∧ shouldCrawlUrl "https://example.com" "https://other.com/page" = false
    ∧ shouldCrawlUrl "https://example.com" "https://example.com/wp-admin/edit" = false
    ∧ shouldCrawlUrl "https://example.com" "https://example.com/blog/post-1" = true := by
  refine ⟨?_, by decide, by decide, by decide, by decide, by decide⟩
  intro siteOrigin url
  rw [shouldCrawlUrl_eq_conditions]
  cases hp : parseURL url with
  | none => simp
  | some u =>
    simp only [Bool.and_eq_true, decide_eq_true_iff, Bool.not_eq_true',
      List.any_eq_false, Option.some.injEq]
    constructor
    · rintro ⟨⟨⟨h1, h2⟩, h3⟩, h4⟩
      exact ⟨u, rfl, h1, h2, h3, h4⟩
    · rintro ⟨u', hu', h1, h2, h3, h4⟩
      cases hu'
      exact ⟨⟨⟨h1, h2⟩, h3⟩, h4⟩

end SiteMapper

namespace SiteMapper

/-! ## Claim C3 — sitemap depth bound and leaf cap -/

/-- 501 same-origin, crawlable page URLs. -/
def c3ChildUrls : List String :=
  (List.range 501).map (fun i => "https://s.test/sm" ++ toString i)

/-- A sitemap environment: the canonical `sitemap.xml` is an index pointing
at one child sitemap, and that child is a plain sitemap with 501 page URLs. -/
def c3Env : Env where
  fetchSitemap := fun u =>
    if u = "https://s.test/sitemap.xml" then some ⟨1, ["https://s.test/child.xml"], []⟩
    else if u = "https://s.test/child.xml" then some ⟨0, [], c3ChildUrls⟩
    else none
  fetchPage := fun _ => .failure none
  aiAnalyze := fun _ => none

end SiteMapper

set_option maxRecDepth 100000

/-- C3 counterexample: sitemap resolution can collect **more** than the
500-leaf cap — here a single child sitemap with 501 crawlable URLs makes the
resolved list 501 long, because the cap is checked only after a whole child's
pages have been appended. -/
theorem c3_claim_counterexample :
    SiteMapper.SITEMAP_PAGE_LIMIT <
      (SiteMapper.parseSitemap SiteMapper.c3Env "https://s.test" 0).length := by
  decide

namespace SiteMapper

/-- C3 (amended): the depth guard is effective — at depth ≥ 2, resolution
(both the top-level and the individual-sitemap form) returns `[]` without
recursing — and index expansion stops consuming further child sitemaps as
soon as the accumulated page count has reached the 500 cap after appending
a child's pages; the accumulated total itself, however, can exceed 500
(`c3_claim_counterexample`), because the check runs only between children
and a directly-found leaf sitemap is never capped at all. -/
theorem c3_amended_depth_and_cap :
    (∀ (env : Env) (baseUrl websiteUrl : String) (d : Nat), MAX_SITEMAP_DEPTH ≤ d →
      parseSitemap env baseUrl d = [] ∧ parseIndividualSitemap env baseUrl d websiteUrl = [])
    ∧ (∀ (env : Env) (baseUrl : String) (d : Nat) (childUrl : String)
        (rest : List String) (acc : List CrawledPage),
        SITEMAP_PAGE_LIMIT ≤ (acc ++ parseIndividualSitemap env baseUrl d childUrl).length →
        parseSitemapChildren env baseUrl d (childUrl :: rest) acc =
          acc ++ parseIndividualSitemap env baseUrl d childUrl) := by
  constructor
  · intro env baseUrl websiteUrl d hd
    constructor
    · unfold parseSitemap
      rw [if_pos hd]
    · unfold parseIndividualSitemap
      rw [if_pos hd]
  · intro env baseUrl d childUrl rest acc hcap
    unfold parseSitemapChildren
    dsimp only
    rw [if_pos hcap]

/-- An environment with no reachable sitemaps, and 500 already-accumulated
pages, used to exercise the cap stop. -/
def c3WitnessEnv : Env := ⟨fun _ => none, fun _ => .failure none, fun _ => none⟩

def c3AccPages : List CrawledPage := List.replicate 500 { url := "x" }

end SiteMapper

/-- Witness for `c3_amended_depth_and_cap` at concrete inputs. -/
theorem c3_amended_witness :
    (SiteMapper.MAX_SITEMAP_DEPTH ≤ 2
      ∧ SiteMapper.parseSitemap SiteMapper.c3WitnessEnv "https://s.test" 2 = [])
    ∧ (SiteMapper.SITEMAP_PAGE_LIMIT ≤
        (SiteMapper.c3AccPages
          ++ SiteMapper.parseIndividualSitemap SiteMapper.c3WitnessEnv "https://s.test" 1 "https://s.test/child.xml").length
      ∧ SiteMapper.parseSitemapChildren SiteMapper.c3WitnessEnv "https://s.test" 1
          ["https://s.test/child.xml"] SiteMapper.c3AccPages =
        SiteMapper.c3AccPages
          ++ SiteMapper.parseIndividualSitemap SiteMapper.c3WitnessEnv "https://s.test" 1 "https://s.test/child.xml") :=
  ⟨⟨by decide,
    (SiteMapper.c3_amended_depth_and_cap.1 SiteMapper.c3WitnessEnv "https://s.test" "https://s.test/child.xml" 2 (by decide)).1⟩,
   ⟨by decide,
    SiteMapper.c3_amended_depth_and_cap.2 SiteMapper.c3WitnessEnv "https://s.test" 1 "https://s.test/child.xml" []
      SiteMapper.c3AccPages (by decide)⟩⟩

namespace SiteMapper

/-! ## Claim C1 — one PageResult per attempted CrawlTarget -/

/-- Decoration only: `performTraditionalAnalysis` only decorates the record: the URL is
unchanged. -/
theorem performTraditionalAnalysis_url {pageData r : CrawledPage} {root : Node}
    {options : CrawlOptions} {url : String}
    (h : performTraditionalAnalysis pageData root options url = some r) :
    r.url = pageData.url := by
  unfold performTraditionalAnalysis at h
  rw [Option.map_eq_some'] at h
  obtain ⟨x, hx, hr⟩ := h
  have hxu : x.url = pageData.url := by
    split at hx
    · split at hx
      · cases hx
      · cases Option.some.inj hx
        rfl
    · cases Option.some.inj hx
      rfl
  subst hr
  split
  · exact hxu
  · exact hxu

/-- Each attempted sitemap target yields a result carrying its own URL. -/
theorem processSitemapPage_url (env : Env) (options : CrawlOptions) (glm : Bool) (u : String) :
    (processSitemapPage env options glm u).url = u := by
  unfold processSitemapPage
  split
  · rfl
  · split
    · rfl
    · dsimp only
      split
      · rename_i pd hpd
        split at hpd
        · split at hpd
          · cases hpd
          · split at hpd
            · cases Option.some.inj hpd
              rfl
            · exact performTraditionalAnalysis_url hpd
        · exact performTraditionalAnalysis_url hpd
      · rfl

/-- Every page a fallback-crawl run emits beyond its starting list either
came out of a successful fetch or is the degraded record for its URL: when
that URL's fetch fails, the page carries the best-known HTTP status (0 when
unknown) and the fixed placeholder content summary. -/
theorem crawlLoop_degraded_shape (env : Env) (options : CrawlOptions) (baseUrl : String)
    (visited toVisit : List String) (pages : List CrawledPage) :
    ∀ p ∈ crawlLoop env options baseUrl visited toVisit pages,
      p ∈ pages ∨ (∀ httpStatus : Option Nat, env.fetchPage p.url = .failure httpStatus →
        p.statusCode = some (httpStatus.getD 0)
        ∧ p.contentSummary = some "Page could not be analyzed due to loading error") := by
  induction visited, toVisit, pages using crawlLoop.induct env options baseUrl with
  | case1 visited pages =>
    rw [crawlLoop]
    exact fun p hp => Or.inl hp
  | case2 visited pages x rest hbudget hvis ih =>
    rw [crawlLoop]
    simp only [hbudget, dif_pos, if_pos hvis]
    exact ih
  | case3 visited pages x rest hbudget hvis visited' httpStatus hfetch ih =>
    rw [crawlLoop]
    rw [dif_pos hbudget, if_neg hvis, hfetch]
    intro p hp
    cases ih p hp with
    | inr h => exact Or.inr h
    | inl h =>
      rcases List.mem_append.mp h with h | h
      · exact Or.inl h
      · simp only [List.mem_singleton] at h
        subst h
        refine Or.inr (fun st hst => ?_)
        have hx : (failedPage x httpStatus).url = x := rfl
        rw [hx, hfetch] at hst
        have hse := FetchOutcome.failure.inj hst
        subst hse
        exact ⟨rfl, rfl⟩
  | case4 visited pages x rest hbudget hvis visited' status doc hfetch hparse ih =>
    rw [crawlLoop]
    rw [dif_pos hbudget, if_neg hvis, hfetch, hparse]
    intro p hp
    cases ih p hp with
    | inr h => exact Or.inr h
    | inl h =>
      rcases List.mem_append.mp h with h | h
      · exact Or.inl h
      · simp only [List.mem_singleton] at h
        subst h
        refine Or.inr (fun st hst => ?_)
        have hx : (failedPage x none).url = x := rfl
        rw [hx, hfetch] at hst
        cases hst
  | case5 visited pages x rest hbudget hvis visited' status doc hfetch b hparse title pd0 pd1 pd2 ih =>
    rw [crawlLoop]
    rw [dif_pos hbudget, if_neg hvis, hfetch, hparse]
    intro p hp
    cases ih p hp with
    | inr h => exact Or.inr h
    | inl h =>
      rcases List.mem_append.mp h with h | h
      · exact Or.inl h
      · simp only [List.mem_singleton] at h
        subst h
        have hurl : pd2.url = x := by
          show (if _ : options.includeImages = true then _ else pd1).url = x
          split
          · show pd1.url = x
            show (if _ : options.deepAnalysis = true then _ else pd0).url = x
            split
            · rfl
            · rfl
          · show pd1.url = x
            show (if _ : options.deepAnalysis = true then _ else pd0).url = x
            split
            · rfl
            · rfl
        refine Or.inr (fun st hst => ?_)
        rw [hurl, hfetch] at hst
        cases hst
  | case6 visited pages x rest hbudget =>
    rw [crawlLoop]
    rw [dif_neg hbudget]
    exact fun p hp => Or.inl hp

/-- C1 (amended): every `CrawlTarget` attempted by the Traversal Controller
yields exactly one `PageResult` carrying that target's URL; when the fetch
fails, the degraded result carries the best-known HTTP status — `0` only
when no status is known — and the fixed non-empty placeholder content
summary.  A failure never drops a URL and never aborts the run.  The first
three conjuncts cover the sitemap-driven loops (lines 81–149 / 262–356);
the fourth shows that the fallback loop (lines 212–227), on an attempted
(in-budget, unvisited) target whose fetch fails, appends exactly that one
degraded record and continues with the rest of the queue; the fifth shows
that in any fallback run every emitted page whose fetch failed has the
degraded shape. -/
theorem c1_amended_one_result_per_target (env : Env) (options : CrawlOptions) (glm : Bool)
    (targets : List String) (baseUrl : String) :
    ((targets.map (processSitemapPage env options glm)).length = targets.length)
    ∧ (∀ u ∈ targets, (processSitemapPage env options glm u).url = u)
    ∧ (∀ u ∈ targets, ∀ httpStatus, env.fetchPage u = .failure httpStatus →
        (processSitemapPage env options glm u).statusCode = some (httpStatus.getD 0)
        ∧ (processSitemapPage env options glm u).contentSummary =
            some "Page could not be analyzed due to loading error")
    ∧ (∀ (visited : List String) (currentUrl : String) (rest : List String)
        (pages : List CrawledPage) (httpStatus : Option Nat),
        pages.length < options.maxPages → currentUrl ∉ visited →
        env.fetchPage currentUrl = .failure httpStatus →
        crawlLoop env options baseUrl visited (currentUrl :: rest) pages =
          crawlLoop env options baseUrl (currentUrl :: visited) rest
            (pages ++ [failedPage currentUrl httpStatus])
        ∧ (failedPage currentUrl httpStatus).url = currentUrl
        ∧ (failedPage currentUrl httpStatus).statusCode = some (httpStatus.getD 0)
        ∧ (failedPage currentUrl httpStatus).contentSummary =
            some "Page could not be analyzed due to loading error")
    ∧ (∀ (visited toVisit : List String) (pages : List CrawledPage),
        ∀ p ∈ crawlLoop env options baseUrl visited toVisit pages,
          p ∈ pages ∨ (∀ httpStatus : Option Nat, env.fetchPage p.url = .failure httpStatus →
            p.statusCode = some (httpStatus.getD 0)
            ∧ p.contentSummary = some "Page could not be analyzed due to loading error")) := by
  refine ⟨List.length_map _ _, fun u _ => processSitemapPage_url env options glm u, ?_, ?_,
    crawlLoop_degraded_shape env options baseUrl⟩
  · intro u _ httpStatus hfail
    unfold processSitemapPage
    rw [hfail]
    exact ⟨rfl, rfl⟩
  · intro visited currentUrl rest pages httpStatus hbudget hvis hfail
    refine ⟨?_, rfl, rfl, rfl⟩
    conv_lhs => rw [crawlLoop]
    rw [dif_pos hbudget, if_neg hvis, hfail]

/-- The C1 environment: a one-URL sitemap whose page fetch fails with
HTTP 404. -/
def c1Env : Env where
  fetchSitemap := fun u =>
    if u = "https://site.test/sitemap.xml" then some ⟨0, [], ["https://site.test/p1"]⟩
    else none
  fetchPage := fun _ => .failure (some 404)
  aiAnalyze := fun _ => none

def c1Options : CrawlOptions := ⟨10, false, false, false, none⟩

end SiteMapper

/-- C1 counterexample: a degraded result does **not** always carry
statusCode 0 — a failure with a known HTTP status (here 404) is recorded as
that status (`error.response?.status || 0`, `crawler.ts` line 146). -/
theorem c1_claim_counterexample :
    SiteMapper.crawlWebsite SiteMapper.c1Env "https://site.test/" SiteMapper.c1Options =
      some [{ url := "https://site.test/p1", title := some "Failed to load",
              statusCode := some 404,
              contentSummary := some "Page could not be analyzed due to loading error" }]
    ∧ ((SiteMapper.crawlWebsite SiteMapper.c1Env "https://site.test/" SiteMapper.c1Options).getD
        []).map SiteMapper.CrawledPage.statusCode ≠ [some 0] := by
  exact ⟨rfl, by decide⟩

/-- Witness for `c1_amended_one_result_per_target` at the concrete 404
environment: one sitemap-driven target, and one fallback-loop attempt. -/
theorem c1_amended_witness :
    (("https://site.test/p1" ∈ ["https://site.test/p1"]
      ∧ SiteMapper.c1Env.fetchPage "https://site.test/p1" = .failure (some 404))
    ∧ ((SiteMapper.processSitemapPage SiteMapper.c1Env SiteMapper.c1Options false
          "https://site.test/p1").statusCode = some ((some 404).getD 0)
      ∧ (SiteMapper.processSitemapPage SiteMapper.c1Env SiteMapper.c1Options false
          "https://site.test/p1").contentSummary =
            some "Page could not be analyzed due to loading error"))
    ∧ ((([] : List SiteMapper.CrawledPage).length < SiteMapper.c1Options.maxPages
      ∧ "https://site.test/p1" ∉ ([] : List String))
    ∧ (SiteMapper.crawlLoop SiteMapper.c1Env SiteMapper.c1Options "https://site.test"
          [] ["https://site.test/p1"] [] =
        SiteMapper.crawlLoop SiteMapper.c1Env SiteMapper.c1Options "https://site.test"
          ["https://site.test/p1"] []
          ([] ++ [SiteMapper.failedPage "https://site.test/p1" (some 404)])
      ∧ (SiteMapper.failedPage "https://site.test/p1" (some 404)).url = "https://site.test/p1"
      ∧ (SiteMapper.failedPage "https://site.test/p1" (some 404)).statusCode =
          some ((some 404).getD 0)
      ∧ (SiteMapper.failedPage "https://site.test/p1" (some 404)).contentSummary =
          some "Page could not be analyzed due to loading error")) :=
  ⟨⟨⟨by decide, rfl⟩,
    (SiteMapper.c1_amended_one_result_per_target SiteMapper.c1Env SiteMapper.c1Options false
      ["https://site.test/p1"] "https://site.test").2.2.1 "https://site.test/p1"
      (by decide) (some 404) rfl⟩,
   ⟨⟨by decide, by decide⟩,
    (SiteMapper.c1_amended_one_result_per_target SiteMapper.c1Env SiteMapper.c1Options false
      ["https://site.test/p1"] "https://site.test").2.2.2.1 [] "https://site.test/p1" []
      [] (some 404) (by decide) (by decide) rfl⟩⟩

namespace SiteMapper

/-! ## Claim C2 — PageResult count under a non-empty sitemap -/

/-- C2: for every valid seed URL whose sitemap resolution is non-empty, both
traversal entry points return exactly `min(sitemapLeafCount, maxPages)`
results (successful and degraded alike). -/
theorem c2_pageresult_count (env : Env) (websiteUrl : String) (options : CrawlOptions)
    (seed : URLParts) (hparse : parseURL websiteUrl = some seed)
    (hne : parseSitemap env seed.origin 0 ≠ []) :
    (∃ pages, crawlWebsite env websiteUrl options = some pages ∧
        pages.length = min (parseSitemap env seed.origin 0).length options.maxPages)
    ∧ (∃ pages, crawlWebsiteWithRealTimeUpdates env websiteUrl options = some pages ∧
        pages.length = min (parseSitemap env seed.origin 0).length options.maxPages) := by
  have hlen : 0 < (parseSitemap env seed.origin 0).length := List.length_pos.mpr hne
  have hcount :
      (((parseSitemap env seed.origin 0).take options.maxPages).map
        (fun p => processSitemapPage env options (hasGlmKey options) p.url)).length =
      min (parseSitemap env seed.origin 0).length options.maxPages := by
    rw [List.length_map, List.length_take, Nat.min_comm]
  constructor
  · refine ⟨_, ?_, hcount⟩
    unfold crawlWebsite
    rw [hparse]
    dsimp only
    rw [if_pos hlen]
  · refine ⟨_, ?_, hcount⟩
    unfold crawlWebsiteWithRealTimeUpdates
    rw [hparse]
    dsimp only
    have hz : ((parseSitemap env seed.origin 0).length == 0) = false := by
      simp only [beq_eq_false_iff_ne, ne_eq]
      omega
    rw [hz]
    rfl

/-- The C2 environment: a two-URL sitemap, pages fetch successfully. -/
def c2Env : Env where
  fetchSitemap := fun u =>
    if u = "https://site.test/sitemap.xml" then
      some ⟨0, [], ["https://site.test/p1", "https://site.test/p2"]⟩
    else none
  fetchPage := fun _ => .success 200 (el "html" [] [el "title" [] [.text "Hi"]])
  aiAnalyze := fun _ => none

def c2Options : CrawlOptions := ⟨1, false, false, false, none⟩

end SiteMapper

/-- Witness for `c2_pageresult_count`: two sitemap leaves, `maxPages = 1`,
so exactly `min 2 1 = 1` result. -/
theorem c2_pageresult_count_witness :
    (SiteMapper.parseURL "https://site.test/" = some ⟨"https", "site.test", "/", ""⟩
      ∧ SiteMapper.parseSitemap SiteMapper.c2Env
          (SiteMapper.URLParts.origin ⟨"https", "site.test", "/", ""⟩) 0 ≠ [])
    ∧ (∃ pages, SiteMapper.crawlWebsite SiteMapper.c2Env "https://site.test/" SiteMapper.c2Options
          = some pages ∧
        pages.length = min (SiteMapper.parseSitemap SiteMapper.c2Env
          (SiteMapper.URLParts.origin ⟨"https", "site.test", "/", ""⟩) 0).length
          SiteMapper.c2Options.maxPages) :=
  ⟨⟨rfl, by decide⟩,
   (SiteMapper.c2_pageresult_count SiteMapper.c2Env "https://site.test/" SiteMapper.c2Options
      ⟨"https", "site.test", "/", ""⟩ rfl (by decide)).1⟩

namespace SiteMapper

/-! ## Claim C10 — hard-coded inline-image host -/

/-- A `main` block whose heading is followed by a sibling holding an inline
image with a relative source. -/
def c10Doc : Node :=
  el "body" []
    [el "main" []
      [el "div" [] [el "h2" [] [.text "Gallery"]],
       el "div" [] [el "img" [("src", "/img/a.png"), ("alt", "pic")] []]]]

/-- C10: in deep-analysis main-content extraction every inline image whose
`src` does not start with `"http"` is recorded with the hard-coded prefix
`https://www.ssfplastics.com` prepended (line 705), whatever site is being
crawled — shown concretely on `c10Doc` — while the top-level
`extractImages` path resolves the same relative source against the actual
page URL (`https://example.com/about`). -/
theorem c10_inline_image_hardcoded_host :
    (∀ src alt : String, jsStartsWith src "http" = false →
        formatInlineImage src alt = "🖼️ " ++ alt ++ ": " ++ (ssfHost ++ src))
    ∧ ((extractMainContent c10Doc 0).map (fun s => (s.title, s.content)) =
        [("📝 Gallery", "🖼️ pic: https://www.ssfplastics.com/img/a.png")])
    ∧ ((extractImages c10Doc "https://example.com/about").map (fun i => i.src) =
        ["https://example.com/img/a.png"]) := by
  refine ⟨?_, by rfl, by rfl⟩
  intro src alt h
  simp [formatInlineImage, h]

end SiteMapper

/-- Witness for `c10_inline_image_hardcoded_host` at the fixture's relative
source. -/
theorem c10_witness :
    SiteMapper.jsStartsWith "/img/a.png" "http" = false
    ∧ SiteMapper.formatInlineImage "/img/a.png" "pic" =
        "🖼️ " ++ "pic" ++ ": " ++ (SiteMapper.ssfHost ++ "/img/a.png") :=
  ⟨by decide, SiteMapper.c10_inline_image_hardcoded_host.1 "/img/a.png" "pic" (by decide)⟩

namespace SiteMapper

/-! ## Claim C9 — `'about us'` / `'quick links'` headings are skipped -/

/-- Every main-content section's title is `"📝 " ++ t` for a heading text
`t` that passed the exclusion filter of line 643. -/
theorem extractMainContent_title_shape (root : Node) (startPosition : Nat) :
    ∀ s ∈ extractMainContent root startPosition, ∃ t : String,
      s.title = "📝 " ++ t
      ∧ jsIncludes (jsToLower t) "about us" = false
      ∧ jsIncludes (jsToLower t) "quick links" = false := by
  intro s hs
  unfold extractMainContent at hs
  split at hs
  · cases hs
  · have hp := mem_numberFrom hs
    rw [List.mem_filterMap] at hp
    obtain ⟨hLoc, _, hsec⟩ := hp
    unfold mainHeadingSection at hsec
    dsimp only at hsec
    by_cases hcond : (decide (jsTrim hLoc.cur.textContent ≠ "")
        && !jsIncludes (jsToLower (jsTrim hLoc.cur.textContent)) "about us"
        && !jsIncludes (jsToLower (jsTrim hLoc.cur.textContent)) "quick links") = true
    · rw [if_pos hcond] at hsec
      simp only [Bool.and_eq_true, Bool.not_eq_true', decide_eq_true_eq] at hcond
      have hfields := Option.some.inj hsec
      refine ⟨jsTrim hLoc.cur.textContent, ?_, hcond.1.2, hcond.2⟩
      have ht := congrArg ProtoSection.title hfields
      simpa using ht.symm
    · rw [if_neg hcond] at hsec
      cases hsec

/-- C9: a heading whose text contains `"about us"` or `"quick links"`
(case-insensitively) never yields a main-content `PageSection`: its would-be
title `"📝 " ++ t` is absent from the extractor's output. -/
theorem c9_about_us_quick_links_skipped (root : Node) (startPosition : Nat) (t : String)
    (h : jsIncludes (jsToLower t) "about us" = true
      ∨ jsIncludes (jsToLower t) "quick links" = true) :
    ("📝 " ++ t) ∉ (extractMainContent root startPosition).map PageSection.title := by
  intro hmem
  rw [List.mem_map] at hmem
  obtain ⟨s, hs, hst⟩ := hmem
  obtain ⟨t', ht', ha, hq⟩ := extractMainContent_title_shape root startPosition s hs
  have htt : t' = t := by
    have hd := congrArg String.data (ht' ▸ hst)
    simp only [String.data_append] at hd
    exact String.ext (List.append_cancel_left hd)
  subst htt
  cases h with
  | inl h => rw [h] at ha; cases ha
  | inr h => rw [h] at hq; cases hq

/-- A `main` block with one excluded heading (`About Us`) and one kept
heading. -/
def c9Doc : Node :=
  el "body" []
    [el "main" []
      [el "h2" [] [.text "About Us"],
       el "h2" [] [.text "Products"]]]

end SiteMapper

/-- Witness for `c9_about_us_quick_links_skipped` on `c9Doc`: the document
contains an `About Us` heading, and no section titled `📝 About Us` is
emitted (while the other heading is). -/
theorem c9_witness :
    (SiteMapper.jsIncludes (SiteMapper.jsToLower "About Us") "about us" = true
      ∨ SiteMapper.jsIncludes (SiteMapper.jsToLower "About Us") "quick links" = true)
    ∧ ("📝 " ++ "About Us") ∉
        (SiteMapper.extractMainContent SiteMapper.c9Doc 0).map SiteMapper.PageSection.title :=
  ⟨Or.inl (by decide),
   SiteMapper.c9_about_us_quick_links_skipped SiteMapper.c9Doc 0 "About Us" (Or.inl (by decide))⟩

namespace SiteMapper

/-! ## Claim C5 — fallback crawl: same origin, no revisits -/

/-- A URL accepted by `shouldCrawlUrl` parses, and its origin is the base
origin. -/
theorem shouldCrawlUrl_origin {baseUrl u : String} (h : shouldCrawlUrl baseUrl u = true) :
    ∃ pu : URLParts, parseURL u = some pu ∧ pu.origin = baseUrl := by
  rw [shouldCrawlUrl_eq_conditions] at h
  cases hp : parseURL u with
  | none => rw [hp] at h; cases h
  | some pu =>
    rw [hp] at h
    simp only [Bool.and_eq_true, decide_eq_true_eq] at h
    exact ⟨pu, rfl, h.1.1.1⟩

/-- Every link the fallback loop enqueues passed `shouldCrawlUrl`. -/
theorem extractCrawlableLinks_crawlable {doc : Node} {currentUrl baseUrl u : String}
    (h : u ∈ extractCrawlableLinks doc currentUrl baseUrl) :
    shouldCrawlUrl baseUrl u = true := by
  unfold extractCrawlableLinks at h
  rw [List.mem_filterMap] at h
  obtain ⟨n, _, hn⟩ := h
  split at hn
  · rename_i href
    split at hn
    · dsimp only at hn
      split at hn
      · rename_i hcrawl
        cases Option.some.inj hn
        exact hcrawl
      · cases hn
    · cases hn
  · cases hn

/-- The run-long invariant of the fallback loop: page URLs stay pairwise
distinct (each fetched URL is first added to the visited set), and every
queued or emitted URL is the seed or passed `shouldCrawlUrl`. -/
theorem crawlLoop_invariant (env : Env) (options : CrawlOptions) (baseUrl seedUrl : String)
    (visited toVisit : List String) (pages : List CrawledPage)
    (hnd : (pages.map CrawledPage.url).Nodup)
    (hpv : ∀ u ∈ pages.map CrawledPage.url, u ∈ visited)
    (hq : ∀ u ∈ toVisit, u = seedUrl ∨ shouldCrawlUrl baseUrl u = true)
    (hpp : ∀ p ∈ pages, p.url = seedUrl ∨ shouldCrawlUrl baseUrl p.url = true) :
    ((crawlLoop env options baseUrl visited toVisit pages).map CrawledPage.url).Nodup
    ∧ (∀ p ∈ crawlLoop env options baseUrl visited toVisit pages,
        p.url = seedUrl ∨ shouldCrawlUrl baseUrl p.url = true) := by
  induction visited, toVisit, pages using crawlLoop.induct env options baseUrl with
  | case1 visited pages =>
    rw [crawlLoop]
    exact ⟨hnd, hpp⟩
  | case2 visited pages x rest hbudget hvis ih =>
    rw [crawlLoop]
    simp only [hbudget, dif_pos, if_pos hvis]
    exact ih hnd hpv (fun u hu => hq u (List.mem_cons_of_mem _ hu)) hpp
  | case3 visited pages x rest hbudget hvis visited' httpStatus hfetch ih =>
    rw [crawlLoop]
    rw [dif_pos hbudget, if_neg hvis, hfetch]
    apply ih
    · simp only [List.map_append, List.map_cons, List.map_nil]
      rw [List.nodup_append]
      refine ⟨hnd, List.nodup_singleton _, ?_⟩
      intro a ha hb
      simp only [failedPage, List.mem_singleton] at hb
      subst hb
      exact hvis (hpv _ ha)
    · intro u hu
      simp only [List.map_append, List.map_cons, List.map_nil, List.mem_append,
        List.mem_singleton] at hu
      cases hu with
      | inl hu => exact List.mem_cons_of_mem _ (hpv _ hu)
      | inr hu => simp [failedPage] at hu; subst hu; exact List.mem_cons_self _ _
    · exact fun u hu => hq u (List.mem_cons_of_mem _ hu)
    · intro p hp
      rcases List.mem_append.mp hp with hp | hp
      · exact hpp p hp
      · simp only [List.mem_singleton] at hp
        subst hp
        exact hq x (List.mem_cons_self _ _)
  | case4 visited pages x rest hbudget hvis visited' status doc hfetch hparse ih =>
    rw [crawlLoop]
    rw [dif_pos hbudget, if_neg hvis, hfetch, hparse]
    apply ih
    · simp only [List.map_append, List.map_cons, List.map_nil]
      rw [List.nodup_append]
      refine ⟨hnd, List.nodup_singleton _, ?_⟩
      intro a ha hb
      simp only [failedPage, List.mem_singleton] at hb
      subst hb
      exact hvis (hpv _ ha)
    · intro u hu
      simp only [List.map_append, List.map_cons, List.map_nil, List.mem_append,
        List.mem_singleton] at hu
      cases hu with
      | inl hu => exact List.mem_cons_of_mem _ (hpv _ hu)
      | inr hu => simp [failedPage] at hu; subst hu; exact List.mem_cons_self _ _
    · exact fun u hu => hq u (List.mem_cons_of_mem _ hu)
    · intro p hp
      rcases List.mem_append.mp hp with hp | hp
      · exact hpp p hp
      · simp only [List.mem_singleton] at hp
        subst hp
        exact hq x (List.mem_cons_self _ _)
  | case5 visited pages x rest hbudget hvis visited' status doc hfetch b hparse title pd0 pd1 pd2 ih =>
    rw [crawlLoop]
    rw [dif_pos hbudget, if_neg hvis, hfetch, hparse]
    have hurl : pd2.url = x := by
      show (if _ : options.includeImages = true then _ else pd1).url = x
      split
      · show pd1.url = x
        show (if _ : options.deepAnalysis = true then _ else pd0).url = x
        split
        · rfl
        · rfl
      · show pd1.url = x
        show (if _ : options.deepAnalysis = true then _ else pd0).url = x
        split
        · rfl
        · rfl
    apply ih
    · simp only [List.map_append, List.map_cons, List.map_nil]
      rw [List.nodup_append]
      refine ⟨hnd, List.nodup_singleton _, ?_⟩
      intro a ha hb
      simp only [List.mem_singleton] at hb
      rw [hb, hurl] at ha
      exact hvis (hpv _ ha)
    · intro u hu
      simp only [List.map_append, List.map_cons, List.map_nil, List.mem_append,
        List.mem_singleton] at hu
      cases hu with
      | inl hu => exact List.mem_cons_of_mem _ (hpv _ hu)
      | inr hu => rw [hu, hurl]; exact List.mem_cons_self _ _
    · intro u hu
      rcases List.mem_append.mp hu with hu | hu
      · exact hq u (List.mem_cons_of_mem _ hu)
      · exact Or.inr (extractCrawlableLinks_crawlable hu)
    · intro p hp
      rcases List.mem_append.mp hp with hp | hp
      · exact hpp p hp
      · simp only [List.mem_singleton] at hp
        subst hp
        rw [hurl]
        exact hq x (List.mem_cons_self _ _)
  | case6 visited pages x rest hbudget =>
    rw [crawlLoop]
    rw [dif_neg hbudget]
    exact ⟨hnd, hpp⟩

end SiteMapper

namespace SiteMapper

/-- C5: when sitemap resolution is empty (fallback link-crawl), the run
never processes the same URL twice — the visited-set keyed by the resolved
URL string makes visiting idempotent — and every emitted result is the seed
itself or a URL that passed `shouldCrawlUrl`, whose origin therefore equals
the seed's origin; in particular no URL of a different origin is ever
enqueued or fetched. -/
theorem c5_fallback_same_origin_no_revisit (env : Env) (websiteUrl : String)
    (options : CrawlOptions) (seed : URLParts)
    (hparse : parseURL websiteUrl = some seed)
    (hsm : parseSitemap env seed.origin 0 = []) :
    ∀ pages, crawlWebsite env websiteUrl options = some pages →
      (pages.map CrawledPage.url).Nodup
      ∧ (∀ p ∈ pages, p.url = websiteUrl ∨
          (shouldCrawlUrl seed.origin p.url = true
            ∧ ∃ pu, parseURL p.url = some pu ∧ pu.origin = seed.origin)) := by
  intro pages hout
  unfold crawlWebsite at hout
  rw [hparse] at hout
  dsimp only at hout
  rw [hsm] at hout
  norm_num at hout
  subst hout
  have hinv := crawlLoop_invariant env options seed.origin websiteUrl [] [websiteUrl] []
    (by simp) (by simp) (by simp) (by simp)
  refine ⟨hinv.1, ?_⟩
  intro p hp
  cases hinv.2 p hp with
  | inl h => exact Or.inl h
  | inr h => exact Or.inr ⟨h, shouldCrawlUrl_origin h⟩

/-- A sitemap-less environment: every sitemap fetch fails, the seed page
fetch fails too. -/
def c5Env : Env := ⟨fun _ => none, fun _ => .failure none, fun _ => none⟩

def c5Options : CrawlOptions := ⟨5, false, false, false, none⟩

end SiteMapper

/-- Witness for `c5_fallback_same_origin_no_revisit` at a concrete
sitemap-less run. -/
theorem c5_witness :
    (SiteMapper.parseURL "https://w.test/" = some ⟨"https", "w.test", "/", ""⟩
      ∧ SiteMapper.parseSitemap SiteMapper.c5Env
          (SiteMapper.URLParts.origin ⟨"https", "w.test", "/", ""⟩) 0 = [])
    ∧ (((SiteMapper.crawlLoop SiteMapper.c5Env SiteMapper.c5Options "https://w.test"
          [] ["https://w.test/"] []).map SiteMapper.CrawledPage.url).Nodup
      ∧ (∀ p ∈ SiteMapper.crawlLoop SiteMapper.c5Env SiteMapper.c5Options "https://w.test"
            [] ["https://w.test/"] [],
          p.url = "https://w.test/" ∨
            (SiteMapper.shouldCrawlUrl
                (SiteMapper.URLParts.origin ⟨"https", "w.test", "/", ""⟩) p.url = true
              ∧ ∃ pu, SiteMapper.parseURL p.url = some pu
                  ∧ SiteMapper.URLParts.origin pu =
                      SiteMapper.URLParts.origin ⟨"https", "w.test", "/", ""⟩))) :=
  ⟨⟨rfl, by decide⟩,
   SiteMapper.c5_fallback_same_origin_no_revisit SiteMapper.c5Env "https://w.test/"
     SiteMapper.c5Options ⟨"https", "w.test", "/", ""⟩ rfl (by decide)
     (SiteMapper.crawlLoop SiteMapper.c5Env SiteMapper.c5Options "https://w.test"
       [] ["https://w.test/"] []) rfl⟩
